import Mathlib

/-!
Verification of the LoRaWANCH341 MAC layer (C++ sources under src/) against its
natural-language specification.  The C++ code is shallowly embedded: bytes are
natural numbers below 256, byte buffers are lists, machine-integer truncation
is explicit (modulo 256, 65536, 2^32), fallible array indexing is modelled with
Option, and the external AES-128-ECB primitive (OpenSSL EVP_aes_128_ecb, not
part of this repository) is a function parameter of type AesFn: it maps a
16-byte key and a 16-byte input block to the 16-byte ciphertext block.
-/

/-- Type of the external AES-128-ECB block primitive: key, then input block. -/
abbrev AesFn := List Nat → List Nat → List Nat

/-- Hypothesis bundle for the AES parameter: the primitive always returns a
16-byte block whose entries are bytes. -/
def AesGood (aes : AesFn) : Prop :=
  ∀ key block, (aes key block).length = 16 ∧ ∀ x ∈ aes key block, x < 256

/-- Concrete AES stand-in used to instantiate hypotheses in witnesses: ignores
nothing, returns 16 bytes derived from key and block sums. -/
def aesW : AesFn := fun key block =>
  List.replicate 16 ((key.foldl (· + ·) 0 + block.foldl (· + ·) 0) % 256)

theorem aesW_good : AesGood aesW := by
  intro key block
  constructor
  · simp [aesW]
  · intro x hx
    simp [aesW, List.eq_of_mem_replicate hx]
    omega

/-- Identity-keystream AES stand-in (returns the input block): used to exhibit
concrete counterexamples where only the 16-byte block shape matters. -/
def aesId : AesFn := fun _ block => block

/-- Bytewise XOR of two buffers (truncating to the shorter, as the C++ loops
index both in lockstep over a common length). -/
def xorBytes (a b : List Nat) : List Nat := List.zipWith (· ^^^ ·) a b

/-- Sixteen zero bytes. -/
def zeros16 : List Nat := List.replicate 16 0

/-- One step of AESCMAC::left_shift (AES-CMAC.cpp lines 99-106): the output
byte is the input byte shifted left once, truncated to 8 bits, ORed with the
carry coming from the MSB of the next (less significant) byte. -/
def AESCMAC.left_shift_byte (b carry : Nat) : Nat := ((b * 2) % 256) ||| carry

/-- AESCMAC::left_shift (AES-CMAC.cpp lines 99-106): 128-bit left shift of the
16-byte buffer, MSB-first; byte i receives the MSB of byte i+1 as carry. -/
def AESCMAC.left_shift (l : List Nat) : List Nat :=
  List.zipWith AESCMAC.left_shift_byte l
    ((l.drop 1).map (fun c => if c &&& 0x80 ≠ 0 then 1 else 0) ++ [0])

/-- AESCMAC::generate_subkey (AES-CMAC.cpp lines 56-97): L is the encryption
of the zero block; K1 is L shifted left, XORed with Rb = 0x87 in its last byte
when the MSB of L is set; K2 likewise from K1. -/
def AESCMAC.generate_subkey (aes : AesFn) (key : List Nat) :
    List Nat × List Nat :=
  let L := aes key zeros16
  let s1 := AESCMAC.left_shift L
  let k1 := if L.headD 0 &&& 0x80 ≠ 0 then s1.set 15 ((s1.getD 15 0) ^^^ 0x87) else s1
  let s2 := AESCMAC.left_shift k1
  let k2 := if k1.headD 0 &&& 0x80 ≠ 0 then s2.set 15 ((s2.getD 15 0) ^^^ 0x87) else s2
  (k1, k2)

/-- Loop of AESCMAC::calculate over the complete blocks preceding the last one
(AES-CMAC.cpp lines 22-29): x is replaced by the encryption of block XOR x. -/
def AESCMAC.cmac_fold (aes : AesFn) (key : List Nat) :
    List (List Nat) → List Nat → List Nat
  | [], x => x
  | b :: bs, x => AESCMAC.cmac_fold aes key bs (aes key (xorBytes b x))

/-- AESCMAC::calculate (AES-CMAC.cpp lines 7-54).  n = ceil(len/16) complete or
partial blocks; the first n-1 are folded through AES, the last block is XORed
with K1 (complete) or padded with 0x80 and XORed with K2 (incomplete), and the
result is encrypted once more.  For the empty message the C++ computes n = 0
and the loop bound n-1 underflows as size_t, so the loop immediately reads
message[0] out of bounds: the embedding returns none there. -/
def AESCMAC.calculate (aes : AesFn) (message key : List Nat) :
    Option (List Nat) :=
  if message.length = 0 then none
  else
    let n := (message.length + 15) / 16
    let last_block_complete := message.length % 16 = 0
    let ks := AESCMAC.generate_subkey aes key
    let blocks := (List.range (n - 1)).map (fun i => (message.drop (i * 16)).take 16)
    let x := AESCMAC.cmac_fold aes key blocks zeros16
    let last_block_size := message.length - (n - 1) * 16
    let last_block := ((message.drop ((n - 1) * 16)) ++ zeros16).take 16
    let y :=
      if last_block_complete then
        xorBytes (xorBytes last_block ks.1) x
      else
        xorBytes (xorBytes (last_block.set last_block_size 0x80) ks.2) x
    some (aes key y)

/-!
Reference AES-CMAC, modelled from the words of RFC 4493 (the specification
names it as the conformance target).  It is written independently of the code
above: the left shift is a carry-propagating recursion, Rb is XORed as a full
16-byte constant, padding appends the 10^i bit pattern, the empty message is
handled by the n = 0 -> n = 1, flag = false rule, and the running value X is
XORed in the opposite operand order.
-/

/-- Left shift by one bit of an MSB-first byte string, RFC 4493 style: returns
the shifted string and the carry bit that fell out of the low end is propagated
upward; the pair carries (shifted suffix, carry into the byte above). -/
def rfc_shiftl : List Nat → List Nat × Nat
  | [] => ([], 0)
  | b :: bs =>
    let r := rfc_shiftl bs
    (((b * 2 + r.2) % 256) :: r.1, b / 128)

/-- Constant Rb of RFC 4493 as a 16-byte string. -/
def rfc_Rb : List Nat := List.replicate 15 0 ++ [0x87]

/-- Subkey generation per RFC 4493 section 2.3: K1 from L = AES-K(0^128) by
one left shift, XOR Rb when the MSB of L is one; K2 likewise from K1. -/
def rfc_subkeys (aes : AesFn) (key : List Nat) : List Nat × List Nat :=
  let L := aes key zeros16
  let k1 := if 128 ≤ L.headD 0 then xorBytes (rfc_shiftl L).1 rfc_Rb else (rfc_shiftl L).1
  let k2 := if 128 ≤ k1.headD 0 then xorBytes (rfc_shiftl k1).1 rfc_Rb else (rfc_shiftl k1).1
  (k1, k2)

/-- Padding of RFC 4493 section 2.4: append the single bit 1 then zeros up to
the 16-byte block boundary. -/
def rfc_pad (x : List Nat) : List Nat := (x ++ 0x80 :: List.replicate 15 0).take 16

/-- Main loop of RFC 4493 section 2.4: X := AES-K(X XOR M_i) over the first
n-1 blocks, consuming the message 16 bytes at a time. -/
def rfc_mac_blocks (aes : AesFn) (key : List Nat) :
    Nat → List Nat → List Nat → List Nat
  | 0, _, x => x
  | m + 1, msg, x =>
    rfc_mac_blocks aes key m (msg.drop 16) (aes key (xorBytes x (msg.take 16)))

/-- AES-CMAC per RFC 4493 section 2.4: n = ceil(len/16) with the empty message
mapped to a single padded block; M_last is the last block XOR K1 when complete,
its padding XOR K2 otherwise; the tag is AES-K(M_last XOR X). -/
def AES_CMAC_ref (aes : AesFn) (key message : List Nat) : List Nat :=
  let ks := rfc_subkeys aes key
  let len := message.length
  let n := if len = 0 then 1 else (len + 15) / 16
  let tail := message.drop ((n - 1) * 16)
  let mLast :=
    if len ≠ 0 ∧ len % 16 = 0 then xorBytes tail ks.1 else xorBytes (rfc_pad tail) ks.2
  let x := rfc_mac_blocks aes key (n - 1) message zeros16
  aes key (xorBytes mLast x)

set_option maxRecDepth 8000

/-- Bytewise bridge: ORing a carry bit below 2 into a shifted byte equals the
modular addition the RFC-style shift performs. -/
theorem lor_carry_eq_add : ∀ b < 256, ∀ d < 2, ((b * 2) % 256) ||| d = (b * 2 + d) % 256 := by
  decide

/-- MSB bit-test on a byte agrees with division by 128. -/
theorem msb_div_eq : ∀ c < 256, (if c &&& 0x80 ≠ 0 then 1 else 0) = c / 128 := by
  decide

/-- MSB bit-test on a byte agrees with the comparison against 128. -/
theorem msb_ge_iff : ∀ c < 256, (c &&& 0x80 ≠ 0 ↔ 128 ≤ c) := by
  decide

theorem rfc_shiftl_length (l : List Nat) : (rfc_shiftl l).1.length = l.length := by
  induction l with
  | nil => rfl
  | cons b bs ih => simpa [rfc_shiftl] using ih

theorem rfc_shiftl_lt (l : List Nat) : ∀ x ∈ (rfc_shiftl l).1, x < 256 := by
  induction l with
  | nil => simp [rfc_shiftl]
  | cons b bs ih =>
    intro x hx
    simp only [rfc_shiftl, List.mem_cons] at hx
    rcases hx with h | h
    · omega
    · exact ih x h

theorem xorBytes_lt (a : List Nat) :
    ∀ b, (∀ x ∈ a, x < 256) → (∀ x ∈ b, x < 256) → ∀ x ∈ xorBytes a b, x < 256 := by
  induction a with
  | nil => simp [xorBytes]
  | cons p ps ih =>
    intro b ha hb x hx
    cases b with
    | nil => simp [xorBytes] at hx
    | cons q qs =>
      simp only [xorBytes, List.zipWith_cons_cons, List.mem_cons] at hx
      rcases hx with h | h
      · subst h
        have hp : p < 2 ^ 8 := ha p (by simp)
        have hq : q < 2 ^ 8 := hb q (by simp)
        exact Nat.xor_lt_two_pow hp hq
      · exact ih qs (fun y hy => ha y (by simp [hy])) (fun y hy => hb y (by simp [hy])) x h

/-- The bytewise left shift of AES-CMAC.cpp agrees with the RFC-style
carry-propagating shift on byte strings, and the outgoing carry is the head
byte's MSB. -/
theorem left_shift_eq_rfc (l : List Nat) (hl : ∀ x ∈ l, x < 256) :
    AESCMAC.left_shift l = (rfc_shiftl l).1 ∧
      (rfc_shiftl l).2 = (if l.headD 0 &&& 0x80 ≠ 0 then 1 else 0) := by
  induction l with
  | nil => simp [AESCMAC.left_shift, rfc_shiftl]
  | cons b bs ih =>
    have hb : b < 256 := hl b (by simp)
    have ihs := ih (fun x hx => hl x (by simp [hx]))
    constructor
    · cases bs with
      | nil =>
        simp only [AESCMAC.left_shift, rfc_shiftl, List.drop_nil, List.map_nil,
          List.nil_append, List.zipWith_cons_cons, List.zipWith_nil_right,
          AESCMAC.left_shift_byte, List.drop_succ_cons]
        have h0 := lor_carry_eq_add b hb 0 (by omega)
        simp [h0]
      | cons c cs =>
        have hc : c < 256 := hl c (by simp)
        have hd : (if c &&& 0x80 ≠ 0 then 1 else 0) < 2 := by split <;> omega
        simp only [AESCMAC.left_shift, rfc_shiftl, List.drop_succ_cons, List.drop_zero,
          List.map_cons, List.cons_append, List.zipWith_cons_cons, AESCMAC.left_shift_byte]
        refine List.cons_eq_cons.mpr ⟨?_, ?_⟩
        · rw [lor_carry_eq_add b hb _ hd, msb_div_eq c hc]
        · have h1 := ihs.1
          simpa [AESCMAC.left_shift, rfc_shiftl] using h1
    · simp only [rfc_shiftl, List.headD_cons]
      exact (msb_div_eq b hb).symm

/-- XOR against the Rb constant block only changes the last byte. -/
theorem xorRb_eq_set :
    ∀ (k : Nat) (l : List Nat), l.length = k + 1 →
      List.zipWith (· ^^^ ·) l (List.replicate k 0 ++ [0x87]) =
        l.set k ((l.getD k 0) ^^^ 0x87) := by
  intro k
  induction k with
  | zero =>
    intro l hl
    match l, hl with
    | [a], _ => simp
  | succ m ih =>
    intro l hl
    match l with
    | a :: t =>
      have ht : t.length = m + 1 := by simpa using hl
      simp only [List.replicate_succ, List.cons_append, List.zipWith_cons_cons,
        Nat.xor_zero, List.set_cons_succ, List.getD_cons_succ]
      exact congrArg (a :: ·) (ih t ht)

/-- Entries of the Rb constant block are bytes. -/
theorem rfc_Rb_lt : ∀ x ∈ rfc_Rb, x < 256 := by decide

/-- One subkey-derivation stage of the code equals the RFC stage: shift, then
conditionally fold in Rb (bytewise set in the code, full-block XOR in RFC). -/
theorem subkey_stage_eq (l : List Nat) (hlen : l.length = 16) (hlt : ∀ x ∈ l, x < 256) :
    (if l.headD 0 &&& 0x80 ≠ 0 then
        (AESCMAC.left_shift l).set 15 (((AESCMAC.left_shift l).getD 15 0) ^^^ 0x87)
      else AESCMAC.left_shift l) =
    (if 128 ≤ l.headD 0 then xorBytes (rfc_shiftl l).1 rfc_Rb else (rfc_shiftl l).1) := by
  have hhead : l.headD 0 < 256 := by
    cases l with
    | nil => simp
    | cons a t => exact hlt a (by simp)
  have hsh := (left_shift_eq_rfc l hlt).1
  have hslen : (rfc_shiftl l).1.length = 16 := by rw [rfc_shiftl_length, hlen]
  have hset := xorRb_eq_set 15 (rfc_shiftl l).1 (by omega)
  have hiff := msb_ge_iff (l.headD 0) hhead
  by_cases hc : 128 ≤ l.headD 0
  · rw [if_pos (hiff.mpr hc), if_pos hc, hsh]
    simp only [xorBytes, rfc_Rb]
    rw [hset]
  · rw [if_neg (fun h => hc (hiff.mp h)), if_neg hc, hsh]

/-- The RFC subkey stage output is again a 16-byte string of bytes. -/
theorem subkey_stage_good (l : List Nat) (hlen : l.length = 16) :
    (if 128 ≤ l.headD 0 then xorBytes (rfc_shiftl l).1 rfc_Rb else (rfc_shiftl l).1).length = 16 ∧
      ∀ x ∈ (if 128 ≤ l.headD 0 then xorBytes (rfc_shiftl l).1 rfc_Rb else (rfc_shiftl l).1),
        x < 256 := by
  have hslen : (rfc_shiftl l).1.length = 16 := by rw [rfc_shiftl_length, hlen]
  have hRblen : rfc_Rb.length = 16 := by decide
  split
  · constructor
    · simp [xorBytes, List.length_zipWith, hslen, hRblen]
    · exact xorBytes_lt _ _ (rfc_shiftl_lt l) rfc_Rb_lt
  · exact ⟨hslen, rfc_shiftl_lt l⟩

/-- AESCMAC::generate_subkey computes exactly the RFC 4493 subkeys. -/
theorem generate_subkey_eq (aes : AesFn) (key : List Nat) (h : AesGood aes) :
    AESCMAC.generate_subkey aes key = rfc_subkeys aes key := by
  obtain ⟨hLlen, hLlt⟩ := h key zeros16
  have h1 := subkey_stage_eq (aes key zeros16) hLlen hLlt
  have hg := subkey_stage_good (aes key zeros16) hLlen
  have h2 := subkey_stage_eq _ hg.1 hg.2
  simp only [AESCMAC.generate_subkey, rfc_subkeys]
  rw [h1, h2]

/-- The block loop of AESCMAC::calculate, fed the 16-byte chunks of the
message, is the RFC main loop (operand order of the XOR swapped). -/
theorem cmac_fold_eq_rfc (aes : AesFn) (key : List Nat) :
    ∀ (m : Nat) (msg x : List Nat),
      AESCMAC.cmac_fold aes key
          ((List.range m).map fun i => (msg.drop (i * 16)).take 16) x =
        rfc_mac_blocks aes key m msg x := by
  intro m
  induction m with
  | zero => intro msg x; rfl
  | succ k ih =>
    intro msg x
    rw [List.range_succ_eq_map]
    simp only [List.map_cons, List.map_map, Nat.zero_mul, List.drop_zero]
    have hmaps : (List.range k).map ((fun i => (msg.drop (i * 16)).take 16) ∘ (· + 1)) =
        (List.range k).map (fun i => ((msg.drop 16).drop (i * 16)).take 16) := by
      refine List.map_congr_left ?_
      intro i _
      simp only [Function.comp_apply, List.drop_drop]
      rw [show 16 + i * 16 = (i + 1) * 16 by ring]
    rw [show AESCMAC.cmac_fold aes key ((msg.take 16) ::
          (List.range k).map ((fun i => (msg.drop (i * 16)).take 16) ∘ (· + 1))) x =
        AESCMAC.cmac_fold aes key
          ((List.range k).map ((fun i => (msg.drop (i * 16)).take 16) ∘ (· + 1)))
          (aes key (xorBytes (msg.take 16) x)) from rfl, hmaps,
      ih (msg.drop 16) (aes key (xorBytes (msg.take 16) x))]
    have hcomm : xorBytes (msg.take 16) x = xorBytes x (msg.take 16) :=
      List.zipWith_comm_of_comm _ Nat.xor_comm _ _
    rw [hcomm]
    rfl

/-- Appending zeros and truncating is the identity on a full 16-byte block. -/
theorem take16_of_len16 (t : List Nat) (h : t.length = 16) : (t ++ zeros16).take 16 = t := by
  rw [← h, List.take_left]

/-- Zero-filling to 16 bytes and then planting 0x80 at the end of the data, as
the code does, equals the RFC padding 10^i. -/
theorem pad_set_eq (t : List Nat) (ht : t.length < 16) :
    ((t ++ zeros16).take 16).set t.length 0x80 = rfc_pad t := by
  have h1 : (t ++ zeros16).take 16 = t ++ List.replicate (16 - t.length) 0 := by
    rw [zeros16, List.take_append_eq_append_take, List.take_of_length_le (le_of_lt ht),
      List.take_replicate, Nat.min_eq_left (by omega)]
  have h2 : List.replicate (16 - t.length) (0 : Nat) =
      0 :: List.replicate (15 - t.length) 0 := by
    rw [show 16 - t.length = (15 - t.length) + 1 by omega, List.replicate_succ]
  have h3 : rfc_pad t = t ++ 0x80 :: List.replicate (15 - t.length) 0 := by
    rw [rfc_pad, List.take_append_eq_append_take, List.take_of_length_le (le_of_lt ht),
      show (16 : Nat) - t.length = (15 - t.length) + 1 by omega, List.take_succ_cons,
      List.take_replicate, Nat.min_eq_left (by omega)]
  rw [h1, h2, h3, List.set_append, if_neg (by omega)]
  simp

/-- Claim C2 equivalence core: on every NON-EMPTY message AESCMAC::calculate
returns exactly the RFC 4493 AES-CMAC. -/
theorem calculate_eq_ref (aes : AesFn) (key message : List Nat) (hgood : AesGood aes)
    (hne : message.length ≠ 0) :
    AESCMAC.calculate aes message key = some (AES_CMAC_ref aes key message) := by
  simp only [AESCMAC.calculate, AES_CMAC_ref, if_neg hne,
    generate_subkey_eq aes key hgood, cmac_fold_eq_rfc]
  by_cases hmod : message.length % 16 = 0
  · have htlen : (message.drop (((message.length + 15) / 16 - 1) * 16)).length = 16 := by
      rw [List.length_drop]; omega
    rw [if_pos hmod, if_pos ⟨hne, hmod⟩, take16_of_len16 _ htlen]
  · have htlt : (message.drop (((message.length + 15) / 16 - 1) * 16)).length < 16 := by
      rw [List.length_drop]; omega
    have hsize : message.length - ((message.length + 15) / 16 - 1) * 16 =
        (message.drop (((message.length + 15) / 16 - 1) * 16)).length := by
      rw [List.length_drop]
    rw [if_neg hmod, if_neg (by tauto), hsize, pad_set_eq _ htlt]

/-- Claim C2 (AES-CMAC conformance, RFC 4493).  For every key and every
non-empty message (in particular all lengths up to 250) AESCMAC::calculate
returns exactly the RFC 4493 AES-CMAC, so its first 4 bytes equal the
reference MIC.  On the empty message, however, the C++ loop bound n-1
underflows as size_t and the loop immediately indexes message[0] out of
bounds (undefined behaviour), modelled here as none: the conformance the
claim asserts fails at the empty message, where RFC 4493 prescribes a
well-defined MAC. -/
theorem C2_cmac_rfc4493 (aes : AesFn) (key message : List Nat)
    (hgood : AesGood aes) (hbound : message.length ≤ 250) :
    AESCMAC.calculate aes [] key = none ∧
      (message ≠ [] →
        AESCMAC.calculate aes message key = some (AES_CMAC_ref aes key message) ∧
          (AESCMAC.calculate aes message key).map (List.take 4) =
            some ((AES_CMAC_ref aes key message).take 4)) := by
  have hb := hbound
  refine ⟨rfl, fun hne => ?_⟩
  have hlen : message.length ≠ 0 := fun h => hne (List.length_eq_zero.mp h)
  have heq := calculate_eq_ref aes key message hgood hlen
  exact ⟨heq, by rw [heq]; rfl⟩

/-- Witness for C2 at a concrete key and message. -/
theorem C2_cmac_rfc4493_witness :
    AesGood aesW ∧ ([1, 2, 3] : List Nat).length ≤ 250 ∧
      (AESCMAC.calculate aesW [] zeros16 = none ∧
        ([1, 2, 3] ≠ ([] : List Nat) →
          AESCMAC.calculate aesW [1, 2, 3] zeros16 =
              some (AES_CMAC_ref aesW zeros16 [1, 2, 3]) ∧
            (AESCMAC.calculate aesW [1, 2, 3] zeros16).map (List.take 4) =
              some ((AES_CMAC_ref aesW zeros16 [1, 2, 3]).take 4))) :=
  ⟨aesW_good, by decide, C2_cmac_rfc4493 aesW zeros16 [1, 2, 3] aesW_good (by decide)⟩

/-!
Payload cipher (LoRaWAN.cpp).  LoRaWAN::encryptPayload (lines 906-993) and
LoRaWAN::decryptPayload (lines 995-1094) read the session fields devAddr,
nwkSKey, appSKey, uplinkCounter and downlinkCounter of LoRaWAN::Impl.
-/

/-- Session fields of LoRaWAN::Impl consumed by the payload cipher. -/
structure CryptoSession where
  devAddr : List Nat
  nwkSKey : List Nat
  appSKey : List Nat
  uplinkCounter : Nat
  downlinkCounter : Nat
deriving DecidableEq

/-- XOR of the payload against the keystream bytes at equal indices
(LoRaWAN.cpp lines 975-979): each payload index i reads a_encrypted[i], an
out-of-bounds access once i reaches the 16-element array size, modelled as
none. -/
def xorKeystream : List Nat → List Nat → Option (List Nat)
  | [], _ => some []
  | _ :: _, [] => none
  | p :: ps, a :: rest => (xorKeystream ps rest).map (fun r => (p ^^^ a) :: r)

/-- Block A built by LoRaWAN::encryptPayload (lines 937-957): byte 0 is 0x00,
bytes 1-4 the stored DevAddr, bytes 5-6 the uplink counter little-endian,
bytes 7-14 zero, byte 15 the block counter fixed at 1. -/
def LoRaWAN.enc_block_a (s : CryptoSession) : List Nat :=
  0x00 :: s.devAddr ++
    [s.uplinkCounter &&& 0xFF, (s.uplinkCounter >>> 8) &&& 0xFF,
     0, 0, 0, 0, 0, 0, 0, 0, 0x01]

/-- LoRaWAN::encryptPayload (LoRaWAN.cpp lines 906-993): empty payloads map to
the empty vector; otherwise the key is NwkSKey for port 0 and AppSKey else,
a single keystream block is produced by encrypting block A, and every payload
byte is XORed against the keystream byte of the same index. -/
def LoRaWAN.encryptPayload (aes : AesFn) (s : CryptoSession) (payload : List Nat)
    (port : Nat) : Option (List Nat) :=
  if payload = [] then some []
  else
    let key := if port = 0 then s.nwkSKey else s.appSKey
    xorKeystream payload (aes key (LoRaWAN.enc_block_a s))

/-- Block A built by LoRaWAN::decryptPayload (lines 1003-1022): byte 0 is
0x01, byte 5 the direction 0x01 (downlink), bytes 6-9 the stored DevAddr,
bytes 10-11 the downlink counter truncated to 16 bits little-endian, byte 15
the running block counter (a uint8_t). -/
def LoRaWAN.dec_block_a (s : CryptoSession) (ctr : Nat) : List Nat :=
  [0x01, 0x00, 0x00, 0x00, 0x00, 0x01] ++ s.devAddr ++
    [(s.downlinkCounter % 65536) &&& 0xFF, ((s.downlinkCounter % 65536) >>> 8) &&& 0xFF,
     0x00, 0x00, 0x00, ctr % 256]

/-- Loop of LoRaWAN::decryptPayload (lines 1049-1082): one iteration per
started 16-byte block of the payload (the C++ for loop steps i by 16 while
i < size, so it runs ceil(size/16) times, counted here by the first
argument); each iteration encrypts block A with the current block counter and
XORs min(16, remaining) payload bytes against it. -/
def LoRaWAN.decryptBlocks (aes : AesFn) (key : List Nat) (s : CryptoSession) :
    Nat → List Nat → Nat → List Nat
  | 0, _, _ => []
  | m + 1, rest, ctr =>
    List.zipWith (· ^^^ ·) (rest.take 16) (aes key (LoRaWAN.dec_block_a s ctr)) ++
      LoRaWAN.decryptBlocks aes key s m (rest.drop 16) (ctr + 1)

/-- LoRaWAN::decryptPayload (LoRaWAN.cpp lines 995-1094). -/
def LoRaWAN.decryptPayload (aes : AesFn) (s : CryptoSession) (payload : List Nat)
    (port : Nat) : List Nat :=
  if payload = [] then payload
  else
    let key := if port = 0 then s.nwkSKey else s.appSKey
    LoRaWAN.decryptBlocks aes key s ((payload.length + 15) / 16) payload 1

theorem xorKeystream_some :
    ∀ (p a : List Nat), p.length ≤ a.length →
      xorKeystream p a = some (List.zipWith (· ^^^ ·) p a) := by
  intro p
  induction p with
  | nil => intro a _; rfl
  | cons x xs ih =>
    intro a ha
    cases a with
    | nil => simp at ha
    | cons y ys =>
      have := ih ys (by simpa using ha)
      simp [xorKeystream, this]

theorem xorKeystream_isSome :
    ∀ (p a : List Nat), (xorKeystream p a).isSome ↔ p.length ≤ a.length := by
  intro p
  induction p with
  | nil => intro a; simp [xorKeystream]
  | cons x xs ih =>
    intro a
    cases a with
    | nil => simp [xorKeystream]
    | cons y ys => simp [xorKeystream, ih ys]

theorem zipWith_xor_cancel :
    ∀ (p k : List Nat), p.length ≤ k.length →
      List.zipWith (· ^^^ ·) (List.zipWith (· ^^^ ·) p k) k = p := by
  intro p
  induction p with
  | nil => intro k _; rfl
  | cons x xs ih =>
    intro k hk
    cases k with
    | nil => simp at hk
    | cons y ys =>
      have := ih ys (by simpa using hk)
      simp [this, Nat.xor_cancel_right]

theorem decryptBlocks_length (aes : AesFn) (key : List Nat) (s : CryptoSession)
    (hgood : AesGood aes) :
    ∀ (m : Nat) (rest : List Nat) (ctr : Nat), rest.length ≤ 16 * m →
      (LoRaWAN.decryptBlocks aes key s m rest ctr).length = rest.length := by
  intro m
  induction m with
  | zero => intro rest ctr h; simp [LoRaWAN.decryptBlocks]; omega
  | succ k ih =>
    intro rest ctr h
    have hs : (aes key (LoRaWAN.dec_block_a s ctr)).length = 16 :=
      (hgood key (LoRaWAN.dec_block_a s ctr)).1
    have hrec := ih (rest.drop 16) (ctr + 1) (by rw [List.length_drop]; omega)
    simp only [LoRaWAN.decryptBlocks, List.length_append, List.length_zipWith,
      List.length_take, hs, hrec, List.length_drop]
    omega

theorem take_len_append (a b : List Nat) (n : Nat) (h : a.length = n) :
    (a ++ b).take n = a := by
  rw [← h, List.take_left]

theorem drop_len_append (a b : List Nat) (n : Nat) (h : a.length = n) :
    (a ++ b).drop n = b := by
  rw [← h, List.drop_left]

theorem decryptBlocks_nil (aes : AesFn) (key : List Nat) (s : CryptoSession) :
    ∀ (m ctr : Nat), LoRaWAN.decryptBlocks aes key s m [] ctr = [] := by
  intro m
  induction m with
  | zero => intro ctr; rfl
  | succ k ih => intro ctr; simp [LoRaWAN.decryptBlocks, ih]

theorem decryptBlocks_involutive (aes : AesFn) (key : List Nat) (s : CryptoSession)
    (hgood : AesGood aes) :
    ∀ (m : Nat) (rest : List Nat) (ctr : Nat), rest.length ≤ 16 * m →
      LoRaWAN.decryptBlocks aes key s m
          (LoRaWAN.decryptBlocks aes key s m rest ctr) ctr = rest := by
  intro m
  induction m with
  | zero =>
    intro rest ctr h
    have hrest : rest = [] := List.length_eq_zero.mp (by omega)
    subst hrest
    rfl
  | succ k ih =>
    intro rest ctr h
    have hs : (aes key (LoRaWAN.dec_block_a s ctr)).length = 16 :=
      (hgood key (LoRaWAN.dec_block_a s ctr)).1
    by_cases hle : rest.length ≤ 16
    · have htake : rest.take 16 = rest := List.take_of_length_le hle
      have hdrop : rest.drop 16 = [] := List.drop_eq_nil_of_le hle
      have hb1len : (List.zipWith (· ^^^ ·) rest
          (aes key (LoRaWAN.dec_block_a s ctr))).length = rest.length := by
        simp [List.length_zipWith, hs]; omega
      have hb1take : (List.zipWith (· ^^^ ·) rest
            (aes key (LoRaWAN.dec_block_a s ctr))).take 16 =
          List.zipWith (· ^^^ ·) rest (aes key (LoRaWAN.dec_block_a s ctr)) :=
        List.take_of_length_le (by rw [hb1len]; exact hle)
      have hb1drop : (List.zipWith (· ^^^ ·) rest
          (aes key (LoRaWAN.dec_block_a s ctr))).drop 16 = [] :=
        List.drop_eq_nil_of_le (by rw [hb1len]; exact hle)
      simp only [LoRaWAN.decryptBlocks, htake, hdrop, decryptBlocks_nil,
        List.append_nil, hb1take, hb1drop]
      exact zipWith_xor_cancel rest _ (by rw [hs]; exact hle)
    · push_neg at hle
      have htake16 : (rest.take 16).length = 16 := by
        simp [List.length_take]; omega
      have hb1 : (List.zipWith (· ^^^ ·) (rest.take 16)
          (aes key (LoRaWAN.dec_block_a s ctr))).length = 16 := by
        simp [List.length_zipWith, htake16, hs]
      have hinner := ih (rest.drop 16) (ctr + 1) (by rw [List.length_drop]; omega)
      simp only [LoRaWAN.decryptBlocks]
      rw [take_len_append _ _ _ hb1, drop_len_append _ _ _ hb1,
        zipWith_xor_cancel (rest.take 16) _ (by rw [htake16, hs]), hinner,
        List.take_append_drop]

/-- Concrete session used for counterexamples and witnesses. -/
def cexSession : CryptoSession :=
  { devAddr := [0, 0, 0, 0]
    nwkSKey := List.replicate 16 0
    appSKey := List.replicate 16 0
    uplinkCounter := 0
    downlinkCounter := 0 }

/-- Claim C1 counterexample.  With the identity block cipher, the all-zero
session and the one-byte payload 0x00 on port 1, encryptPayload produces 0x00
but decryptPayload maps it to 0x01, because the two functions build different
block-A layouts (encryption puts 0x00 at byte 0 and DevAddr at bytes 1-4 with
the uplink counter; decryption puts 0x01 at byte 0, the direction at byte 5,
DevAddr at bytes 6-9 and the downlink counter): the round trip claimed by the
specification fails. -/
theorem C1_roundtrip_counterexample :
    (LoRaWAN.encryptPayload aesId cexSession [0] 1).map
        (fun c => LoRaWAN.decryptPayload aesId cexSession c 1) = some [1] ∧
      some [1] ≠ some ([0] : List Nat) := by
  decide

/-- Claim C1 amended.  Each direction of the payload cipher is separately an
involution, which is the CTR symmetry ctr_xor(ctr_xor(plain)) = plain within
one direction: encryptPayload inverts itself on payloads of at most 16 bytes
(its single keystream block), and decryptPayload inverts itself on every
payload; but decryptPayload is NOT an inverse of encryptPayload, since the two
build different block-A templates and use different frame counters (see the
counterexample). -/
theorem C1_ctr_symmetry_amended (aes : AesFn) (s : CryptoSession) (payload : List Nat)
    (port : Nat) (hgood : AesGood aes) :
    (payload.length ≤ 16 →
      ∃ c, LoRaWAN.encryptPayload aes s payload port = some c ∧
        LoRaWAN.encryptPayload aes s c port = some payload) ∧
      LoRaWAN.decryptPayload aes s (LoRaWAN.decryptPayload aes s payload port) port =
        payload := by
  constructor
  · intro h16
    by_cases hnil : payload = []
    · subst hnil
      exact ⟨[], rfl, rfl⟩
    · set key := if port = 0 then s.nwkSKey else s.appSKey with hkey
      have hks : (aes key (LoRaWAN.enc_block_a s)).length = 16 := (hgood _ _).1
      have henc : xorKeystream payload (aes key (LoRaWAN.enc_block_a s)) =
          some (List.zipWith (· ^^^ ·) payload (aes key (LoRaWAN.enc_block_a s))) :=
        xorKeystream_some _ _ (by rw [hks]; exact h16)
      refine ⟨List.zipWith (· ^^^ ·) payload (aes key (LoRaWAN.enc_block_a s)), ?_, ?_⟩
      · simp only [LoRaWAN.encryptPayload, if_neg hnil, ← hkey, henc]
      · have hclen : (List.zipWith (· ^^^ ·) payload
            (aes key (LoRaWAN.enc_block_a s))).length = payload.length := by
          simp [List.length_zipWith, hks]; omega
        have hcnil : List.zipWith (· ^^^ ·) payload (aes key (LoRaWAN.enc_block_a s)) ≠ [] := by
          intro hc
          exact hnil (List.length_eq_zero.mp (by rw [← hclen, hc]; rfl))
        simp only [LoRaWAN.encryptPayload, if_neg hcnil, ← hkey]
        rw [xorKeystream_some _ _ (by rw [hks, hclen] at *; exact h16),
          zipWith_xor_cancel _ _ (by rw [hks]; exact h16)]
  · by_cases hnil : payload = []
    · subst hnil; rfl
    · set key := if port = 0 then s.nwkSKey else s.appSKey with hkey
      have hcover : payload.length ≤ 16 * ((payload.length + 15) / 16) := by omega
      have hlen1 : (LoRaWAN.decryptBlocks aes key s ((payload.length + 15) / 16)
          payload 1).length = payload.length :=
        decryptBlocks_length aes key s hgood _ _ _ hcover
      have hd1nil : LoRaWAN.decryptBlocks aes key s ((payload.length + 15) / 16)
          payload 1 ≠ [] := by
        intro hc
        exact hnil (List.length_eq_zero.mp (by rw [← hlen1, hc]; rfl))
      simp only [LoRaWAN.decryptPayload, if_neg hnil, ← hkey, if_neg hd1nil, hlen1]
      exact decryptBlocks_involutive aes key s hgood _ _ _ hcover

/-- Witness for the amended C1 at a concrete session and payload. -/
theorem C1_ctr_symmetry_amended_witness :
    AesGood aesW ∧
      ((([1, 2, 3] : List Nat).length ≤ 16 →
        ∃ c, LoRaWAN.encryptPayload aesW cexSession [1, 2, 3] 1 = some c ∧
          LoRaWAN.encryptPayload aesW cexSession c 1 = some [1, 2, 3]) ∧
        LoRaWAN.decryptPayload aesW cexSession
            (LoRaWAN.decryptPayload aesW cexSession [1, 2, 3] 1) 1 = [1, 2, 3]) :=
  ⟨aesW_good, C1_ctr_symmetry_amended aesW cexSession [1, 2, 3] 1 aesW_good⟩

/-- Claim C10 (implicit keystream bound).  encryptPayload generates exactly one
16-byte keystream block and XORs every payload index against it, so the total
embedding succeeds exactly on payloads of at most 16 bytes; longer payloads
index the keystream array out of bounds. -/
theorem C10_keystream_bound (aes : AesFn) (s : CryptoSession) (payload : List Nat)
    (port : Nat) (hgood : AesGood aes) :
    (LoRaWAN.encryptPayload aes s payload port).isSome ↔ payload.length ≤ 16 := by
  by_cases hnil : payload = []
  · subst hnil
    simp [LoRaWAN.encryptPayload]
  · simp only [LoRaWAN.encryptPayload, if_neg hnil]
    rw [xorKeystream_isSome, (hgood _ _).1]

/-- Witness for C10: a 17-byte payload is refused, a 3-byte payload accepted. -/
theorem C10_keystream_bound_witness :
    AesGood aesW ∧
      ((LoRaWAN.encryptPayload aesW cexSession (List.replicate 17 5) 1).isSome ↔
        (List.replicate 17 5).length ≤ 16) ∧
      ((LoRaWAN.encryptPayload aesW cexSession [1, 2, 3] 2).isSome ↔
        ([1, 2, 3] : List Nat).length ≤ 16) :=
  ⟨aesW_good, C10_keystream_bound aesW cexSession (List.replicate 17 5) 1 aesW_good,
    C10_keystream_bound aesW cexSession [1, 2, 3] 2 aesW_good⟩

/-!
Join-Request construction (LoRaWAN.cpp).  LoRaWAN::Impl::buildJoinRequest
(lines 245-312) pushes MHDR 0x00, AppEUI and DevEUI reversed to little-endian,
the DevNonce little-endian, and calls calculateMIC (lines 315-390), which for
a Join-Request appends the first 4 bytes of CMAC(AppKey, packet).
-/

/-- LoRaWAN::Impl::calculateMIC (LoRaWAN.cpp lines 315-390).  The Join-Request
test inspects the MType bits of packet[0]; the MIC key is AppKey for a
Join-Request and NwkSKey otherwise; a Join-Request whose size is not 19 is
returned unmodified (the early return at line 336); a data packet is prefixed
with the B0 block before the CMAC.  The Option propagates the CMAC of an empty
buffer. -/
def LoRaWAN.calculateMIC (aes : AesFn) (appKey nwkSKey : List Nat)
    (packet : List Nat) : Option (List Nat) :=
  let isJoinRequest := packet.headD 0 &&& 0xE0 = 0
  let key := if isJoinRequest then appKey else nwkSKey
  if isJoinRequest ∧ packet.length ≠ 19 then some packet
  else
    let micData :=
      if isJoinRequest then packet
      else
        0x49 :: List.replicate 4 0 ++ [0x00] ++
          (packet.drop 1).take 4 ++ (packet.drop 6).take 2 ++
          [0x00, packet.length % 256] ++ packet
    (AESCMAC.calculate aes micData key).map (fun cmac => packet ++ cmac.take 4)

/-- LoRaWAN::Impl::buildJoinRequest (LoRaWAN.cpp lines 245-312) for a given
generated DevNonce: MHDR 0x00, AppEUI bytes pushed from index 7 down to 0,
DevEUI likewise, DevNonce low byte then high byte, then the MIC. -/
def LoRaWAN.buildJoinRequest (aes : AesFn) (appKey nwkSKey appEUI devEUI : List Nat)
    (nonce : Nat) : Option (List Nat) :=
  LoRaWAN.calculateMIC aes appKey nwkSKey
    (0x00 :: appEUI.reverse ++ devEUI.reverse ++ [nonce &&& 0xFF, (nonce >>> 8) &&& 0xFF])

/-- Scenario-1 inputs of specification section 8 (hex strings are stored
byte-by-byte in natural order by setAppEUI / setDevEUI / setAppKey). -/
def scenario1AppEUI : List Nat := [0x70, 0xB3, 0xD5, 0x7E, 0xD0, 0x02, 0x01, 0xA6]

/-- Scenario-1 DevEUI. -/
def scenario1DevEUI : List Nat := [0x00, 0x04, 0xA3, 0x0B, 0x00, 0x1C, 0x05, 0x30]

/-- Scenario-1 AppKey. -/
def scenario1AppKey : List Nat :=
  [0x8D, 0x7F, 0x3B, 0x4C, 0x5A, 0x6B, 0x7C, 0x8D,
   0x9E, 0x0F, 0x1A, 0x2B, 0x3C, 0x4D, 0x5E, 0x6F]

/-- Expected first 19 bytes from specification section 8, scenario 1. -/
def scenario1Bytes : List Nat :=
  [0x00, 0xA6, 0x01, 0x02, 0xD0, 0x7E, 0xD5, 0xB3, 0x70,
   0x30, 0x05, 0x1C, 0x00, 0x0B, 0xA3, 0x04, 0x00, 0x01, 0x00]

/-- Length of the RFC CMAC tag under a well-formed cipher. -/
theorem AES_CMAC_ref_length (aes : AesFn) (key m : List Nat) (hgood : AesGood aes) :
    (AES_CMAC_ref aes key m).length = 16 := by
  simp only [AES_CMAC_ref]
  exact (hgood _ _).1

/-- calculateMIC on a 19-byte Join-Request appends the first 4 bytes of the
RFC 4493 CMAC of the packet under AppKey. -/
theorem calculateMIC_join (aes : AesFn) (appKey nwkSKey packet : List Nat)
    (hgood : AesGood aes) (hlen : packet.length = 19)
    (hhead : packet.headD 0 &&& 0xE0 = 0) :
    LoRaWAN.calculateMIC aes appKey nwkSKey packet =
      some (packet ++ (AES_CMAC_ref aes appKey packet).take 4) := by
  simp only [LoRaWAN.calculateMIC, hhead, hlen]
  simp only [ne_eq, not_true_eq_false, and_false, if_false, if_true, eq_self_iff_true,
    ite_true, ite_false]
  rw [calculate_eq_ref aes appKey packet hgood (by omega)]
  rfl

/-- Claim C3 (Join-Request encoding).  For every AppEUI and DevEUI of 8 bytes,
every AppKey and every DevNonce, buildJoinRequest yields 23 bytes: MHDR 0x00,
AppEUI reversed, DevEUI reversed, DevNonce little-endian, then a 4-byte MIC
equal to the first 4 bytes of the RFC 4493 CMAC of the first 19 bytes under
AppKey; and on the scenario-1 inputs of specification section 8 the first 19
bytes are byte-exact as listed. -/
theorem C3_join_request_encoding (aes : AesFn) (appKey nwkSKey appEUI devEUI : List Nat)
    (nonce : Nat) (hgood : AesGood aes) (happ : appEUI.length = 8)
    (hdev : devEUI.length = 8) :
    (∃ r, LoRaWAN.buildJoinRequest aes appKey nwkSKey appEUI devEUI nonce = some r ∧
      r.length = 23 ∧
      r.take 19 = 0x00 :: appEUI.reverse ++ devEUI.reverse ++
        [nonce &&& 0xFF, (nonce >>> 8) &&& 0xFF] ∧
      r.drop 19 = (AES_CMAC_ref aes appKey (r.take 19)).take 4) ∧
    (LoRaWAN.buildJoinRequest aes scenario1AppKey nwkSKey scenario1AppEUI
        scenario1DevEUI 1).map (List.take 19) = some scenario1Bytes := by
  constructor
  · have hplen : (0x00 :: appEUI.reverse ++ devEUI.reverse ++
        [nonce &&& 0xFF, (nonce >>> 8) &&& 0xFF]).length = 19 := by
      simp [happ, hdev]
    have hmic := calculateMIC_join aes appKey nwkSKey
      (0x00 :: appEUI.reverse ++ devEUI.reverse ++
        [nonce &&& 0xFF, (nonce >>> 8) &&& 0xFF]) hgood hplen (by simp)
    refine ⟨_, hmic, ?_, ?_, ?_⟩
    · have hc : (AES_CMAC_ref aes appKey (0x00 :: appEUI.reverse ++ devEUI.reverse ++
          [nonce &&& 0xFF, (nonce >>> 8) &&& 0xFF])).length = 16 :=
        AES_CMAC_ref_length aes appKey _ hgood
      rw [List.length_append, hplen, List.length_take, hc]
      rfl
    · exact take_len_append _ _ _ hplen
    · rw [take_len_append _ _ _ hplen, drop_len_append _ _ _ hplen]
  · have hS := calculateMIC_join aes scenario1AppKey nwkSKey
      (0x00 :: scenario1AppEUI.reverse ++ scenario1DevEUI.reverse ++
        [1 &&& 0xFF, (1 >>> 8) &&& 0xFF]) hgood (by decide) (by decide)
    show (LoRaWAN.calculateMIC aes scenario1AppKey nwkSKey
        (0x00 :: scenario1AppEUI.reverse ++ scenario1DevEUI.reverse ++
          [1 &&& 0xFF, (1 >>> 8) &&& 0xFF])).map (List.take 19) = some scenario1Bytes
    rw [hS, Option.map_some', take_len_append _ _ _ (by decide)]
    decide

/-- Witness for C3 at the scenario inputs. -/
theorem C3_join_request_encoding_witness :
    AesGood aesW ∧ scenario1AppEUI.length = 8 ∧ scenario1DevEUI.length = 8 ∧
      ((∃ r, LoRaWAN.buildJoinRequest aesW scenario1AppKey zeros16 scenario1AppEUI
          scenario1DevEUI 1 = some r ∧
        r.length = 23 ∧
        r.take 19 = 0x00 :: scenario1AppEUI.reverse ++ scenario1DevEUI.reverse ++
          [1 &&& 0xFF, (1 >>> 8) &&& 0xFF] ∧
        r.drop 19 = (AES_CMAC_ref aesW scenario1AppKey (r.take 19)).take 4) ∧
      (LoRaWAN.buildJoinRequest aesW scenario1AppKey zeros16 scenario1AppEUI
          scenario1DevEUI 1).map (List.take 19) = some scenario1Bytes) :=
  ⟨aesW_good, by decide, by decide,
    C3_join_request_encoding aesW scenario1AppKey zeros16 scenario1AppEUI scenario1DevEUI 1
      aesW_good (by decide) (by decide)⟩

/-!
Join-Accept processing (LoRaWAN.cpp lines 392-501).  The Impl fields read and
written by processJoinAccept.
-/

/-- Session fields of LoRaWAN::Impl touched by processJoinAccept. -/
structure JoinState where
  appKey : List Nat
  devAddr : List Nat
  nwkSKey : List Nat
  appSKey : List Nat
  uplinkCounter : Nat
  downlinkCounter : Nat
  dataRate : Nat
  txPower : Nat
  lastDevNonce : Nat
deriving DecidableEq

/-- Decryption loop of processJoinAccept (LoRaWAN.cpp lines 403-409): one
iteration per started 16-byte block of response[1..] (the C++ for loop starts
at i = 1 and steps by 16, so it runs ceil((size-1)/16) times, counted by the
first argument); each block of block_size = min(16, remaining) bytes is copied
into a 16-byte stack array and AES-ENCRYPTED with AppKey, and block_size output
bytes are copied back.  The C++ stack array is uninitialized beyond block_size;
that tail is modelled as zero bytes (it is only reachable for response sizes
not of the form 1 + 16k, which the 17- and 33-byte Join-Accept frames never
produce). -/
def LoRaWAN.ja_decrypt_blocks (aes : AesFn) (appKey : List Nat) :
    Nat → List Nat → List Nat
  | 0, _ => []
  | m + 1, rest =>
    (aes appKey ((rest.take 16 ++ zeros16).take 16)).take (min 16 rest.length) ++
      LoRaWAN.ja_decrypt_blocks aes appKey m (rest.drop 16)

/-- Decrypted Join-Accept buffer: MHDR stays clear, the remainder goes through
the block loop. -/
def LoRaWAN.ja_decrypted (aes : AesFn) (st : JoinState) (response : List Nat) : List Nat :=
  response.headD 0 ::
    LoRaWAN.ja_decrypt_blocks aes st.appKey ((response.length + 14) / 16) (response.drop 1)

/-- MIC verification step of processJoinAccept (LoRaWAN.cpp lines 411-420):
the CMAC over the decrypted bytes minus the trailing 4 is compared against
those trailing 4 bytes.  A CMAC failure (empty input, unreachable for sizes
of at least 17) counts as mismatch. -/
def LoRaWAN.ja_mic_matches (aes : AesFn) (st : JoinState) (response : List Nat) : Bool :=
  let d := LoRaWAN.ja_decrypted aes st response
  match AESCMAC.calculate aes (d.take (d.length - 4)) st.appKey with
  | none => false
  | some calculated_mic => decide (calculated_mic.take 4 = d.drop (d.length - 4))

/-- LoRaWAN::Impl::processJoinAccept (LoRaWAN.cpp lines 392-501): packets
shorter than 17 bytes are rejected; then the buffer is decrypted and the MIC
verified; only on a match are DevAddr (decrypted bytes 7-10), the session keys
(AES of AppKey over 0x01/0x02 followed by AppNonce, NetID, the stored DevNonce
little-endian and seven zero bytes), dataRate, txPower and the reset counters
written.  Returns (success, updated state). -/
def LoRaWAN.processJoinAccept (aes : AesFn) (st : JoinState) (response : List Nat) :
    Bool × JoinState :=
  if response.length < 17 then (false, st)
  else
    let d := LoRaWAN.ja_decrypted aes st response
    if LoRaWAN.ja_mic_matches aes st response then
      let keyTail := [d.getD 1 0, d.getD 2 0, d.getD 3 0, d.getD 4 0, d.getD 5 0,
        d.getD 6 0, st.lastDevNonce &&& 0xFF, (st.lastDevNonce >>> 8) &&& 0xFF,
        0, 0, 0, 0, 0, 0, 0]
      let dlSettings := d.getD 11 0
      (true,
        { st with
          devAddr := [d.getD 7 0, d.getD 8 0, d.getD 9 0, d.getD 10 0]
          nwkSKey := aes st.appKey (0x01 :: keyTail)
          appSKey := aes st.appKey (0x02 :: keyTail)
          dataRate := (dlSettings >>> 4) &&& 0x0F
          txPower := dlSettings &&& 0x0F
          uplinkCounter := 0
          downlinkCounter := 0 })
    else (false, st)

/-- A take of a drop, spelled with default-valued indexing. -/
theorem drop_take_eq_map_getD (l : List Nat) (i k : Nat) (h : i + k ≤ l.length) :
    (l.drop i).take k = (List.range k).map (fun j => l.getD (i + j) 0) := by
  apply List.ext_getElem
  · simp only [List.length_take, List.length_drop, List.length_map, List.length_range]
    omega
  · intro j h1 h2
    have hj : j < k := by simpa using h2
    have hij : i + j < l.length := by omega
    simp only [List.getElem_take, List.getElem_drop, List.getElem_map, List.getElem_range]
    exact (List.getD_eq_getElem l 0 hij).symm

theorem ja_decrypt_blocks_length (aes : AesFn) (appKey : List Nat) (hgood : AesGood aes) :
    ∀ (m : Nat) (rest : List Nat), rest.length ≤ 16 * m →
      (LoRaWAN.ja_decrypt_blocks aes appKey m rest).length = rest.length := by
  intro m
  induction m with
  | zero =>
    intro rest h
    simp only [LoRaWAN.ja_decrypt_blocks, List.length_nil]
    omega
  | succ k ih =>
    intro rest h
    have hs : (aes appKey ((rest.take 16 ++ zeros16).take 16)).length = 16 := (hgood _ _).1
    have hrec := ih (rest.drop 16) (by rw [List.length_drop]; omega)
    simp only [LoRaWAN.ja_decrypt_blocks, List.length_append, List.length_take, hs, hrec,
      List.length_drop]
    omega

theorem ja_decrypted_length (aes : AesFn) (st : JoinState) (response : List Nat)
    (hgood : AesGood aes) (h1 : 1 ≤ response.length) :
    (LoRaWAN.ja_decrypted aes st response).length = response.length := by
  have hcov : (response.drop 1).length ≤ 16 * ((response.length + 14) / 16) := by
    rw [List.length_drop]; omega
  simp only [LoRaWAN.ja_decrypted, List.length_cons,
    ja_decrypt_blocks_length aes st.appKey hgood _ _ hcov, List.length_drop]
  omega

/-- Claim C4 (session-key derivation).  Whenever processJoinAccept accepts a
packet (size at least 17 and matching MIC), it derives
NwkSKey = AES-ECB(AppKey, 0x01, AppNonce bytes 1-3 of the decrypted buffer,
NetID bytes 4-6, stored DevNonce little-endian, seven zero bytes) and AppSKey
identically with leading byte 0x02.  The embedding is a pure function of
AppKey, the decrypted buffer and the stored DevNonce, so the result is
deterministic in those inputs. -/
theorem C4_session_key_derivation (aes : AesFn) (st : JoinState) (response : List Nat)
    (hgood : AesGood aes) (h17 : 17 ≤ response.length)
    (hmic : LoRaWAN.ja_mic_matches aes st response = true) :
    (LoRaWAN.processJoinAccept aes st response).1 = true ∧
      (LoRaWAN.processJoinAccept aes st response).2.nwkSKey =
        aes st.appKey (0x01 ::
          (((LoRaWAN.ja_decrypted aes st response).drop 1).take 3 ++
            ((LoRaWAN.ja_decrypted aes st response).drop 4).take 3 ++
            [st.lastDevNonce &&& 0xFF, (st.lastDevNonce >>> 8) &&& 0xFF] ++
            List.replicate 7 0)) ∧
      (LoRaWAN.processJoinAccept aes st response).2.appSKey =
        aes st.appKey (0x02 ::
          (((LoRaWAN.ja_decrypted aes st response).drop 1).take 3 ++
            ((LoRaWAN.ja_decrypted aes st response).drop 4).take 3 ++
            [st.lastDevNonce &&& 0xFF, (st.lastDevNonce >>> 8) &&& 0xFF] ++
            List.replicate 7 0)) := by
  have hd : (LoRaWAN.ja_decrypted aes st response).length = response.length :=
    ja_decrypted_length aes st response hgood (by omega)
  have hnot : ¬ response.length < 17 := by omega
  have h13 : ((LoRaWAN.ja_decrypted aes st response).drop 1).take 3 =
      (List.range 3).map (fun j => (LoRaWAN.ja_decrypted aes st response).getD (1 + j) 0) :=
    drop_take_eq_map_getD _ 1 3 (by omega)
  have h46 : ((LoRaWAN.ja_decrypted aes st response).drop 4).take 3 =
      (List.range 3).map (fun j => (LoRaWAN.ja_decrypted aes st response).getD (4 + j) 0) :=
    drop_take_eq_map_getD _ 4 3 (by omega)
  simp only [LoRaWAN.processJoinAccept, if_neg hnot, hmic, if_true]
  refine ⟨trivial, ?_, ?_⟩ <;> rw [h13, h46] <;> rfl

/-- Witness session for the Join-Accept theorems. -/
def jaSession : JoinState :=
  { appKey := zeros16
    devAddr := [1, 2, 3, 4]
    nwkSKey := List.replicate 16 9
    appSKey := List.replicate 16 9
    uplinkCounter := 5
    downlinkCounter := 7
    dataRate := 0
    txPower := 0
    lastDevNonce := 3 }

/-- Witness for C4: a 17-byte packet accepted under the aesW cipher. -/
theorem C4_session_key_derivation_witness :
    AesGood aesW ∧ 17 ≤ (0x80 :: List.replicate 16 0).length ∧
      LoRaWAN.ja_mic_matches aesW jaSession (0x80 :: List.replicate 16 0) = true ∧
      ((LoRaWAN.processJoinAccept aesW jaSession (0x80 :: List.replicate 16 0)).1 = true ∧
        (LoRaWAN.processJoinAccept aesW jaSession (0x80 :: List.replicate 16 0)).2.nwkSKey =
          aesW jaSession.appKey (0x01 ::
            (((LoRaWAN.ja_decrypted aesW jaSession (0x80 :: List.replicate 16 0)).drop 1).take 3 ++
              ((LoRaWAN.ja_decrypted aesW jaSession (0x80 :: List.replicate 16 0)).drop 4).take 3 ++
              [jaSession.lastDevNonce &&& 0xFF, (jaSession.lastDevNonce >>> 8) &&& 0xFF] ++
              List.replicate 7 0)) ∧
        (LoRaWAN.processJoinAccept aesW jaSession (0x80 :: List.replicate 16 0)).2.appSKey =
          aesW jaSession.appKey (0x02 ::
            (((LoRaWAN.ja_decrypted aesW jaSession (0x80 :: List.replicate 16 0)).drop 1).take 3 ++
              ((LoRaWAN.ja_decrypted aesW jaSession (0x80 :: List.replicate 16 0)).drop 4).take 3 ++
              [jaSession.lastDevNonce &&& 0xFF, (jaSession.lastDevNonce >>> 8) &&& 0xFF] ++
              List.replicate 7 0))) :=
  ⟨aesW_good, by decide, by decide,
    C4_session_key_derivation aesW jaSession (0x80 :: List.replicate 16 0) aesW_good
      (by decide) (by decide)⟩

/-- Claim C5 (Join-Accept MIC-failure atomicity).  Whenever the CMAC computed
over the decrypted bytes minus the trailing 4 does not match those trailing
MIC bytes, processJoinAccept returns failure and the state -- DevAddr,
NwkSKey, AppSKey, uplinkCounter, downlinkCounter and every other field -- is
returned exactly as it was. -/
theorem C5_join_accept_mic_atomicity (aes : AesFn) (st : JoinState) (response : List Nat)
    (hmic : LoRaWAN.ja_mic_matches aes st response = false) :
    LoRaWAN.processJoinAccept aes st response = (false, st) := by
  by_cases h : response.length < 17
  · simp [LoRaWAN.processJoinAccept, h]
  · simp [LoRaWAN.processJoinAccept, h, hmic]

/-- Witness for C5: a 17-byte all-zero packet whose MIC does not verify. -/
theorem C5_join_accept_mic_atomicity_witness :
    LoRaWAN.ja_mic_matches aesW jaSession (List.replicate 17 0) = false ∧
      LoRaWAN.processJoinAccept aesW jaSession (List.replicate 17 0) = (false, jaSession) :=
  ⟨by decide,
    C5_join_accept_mic_atomicity aesW jaSession (List.replicate 17 0) (by decide)⟩

/-!
Session persistence (SessionManager.cpp).  The JSON container (external cJSON
library) is abstracted as a record holding exactly the key/value pairs
saveSession writes; hex encoding and decoding are modelled character by
character.  Numbers are written through cJSON_AddNumberToObject, which stores
the full value in the node's double field, so the file record holds the exact
counter; they are read back through the node's int field valueint, which cJSON
saturates at INT_MAX = 2^31 - 1, so loading clamps each counter to that bound
before the (value-preserving, since nonnegative) int-to-uint32_t assignment.
-/

/-- SessionManager::SessionData (SessionManager.hpp lines 10-19). -/
structure SessionData where
  devAddr : List Nat
  nwkSKey : List Nat
  appSKey : List Nat
  uplinkCounter : Nat
  downlinkCounter : Nat
  lastDevNonce : Nat
  usedNonces : List Nat
  joined : Bool
deriving DecidableEq

/-- Lowercase hex digit, as produced by std::hex with std::setfill. -/
def hexDigitChar (n : Nat) : Char :=
  if n < 10 then Char.ofNat (48 + n) else Char.ofNat (87 + n)

/-- Numeric value of a hex digit as std::stoi with base 16 reads it. -/
def hexVal (c : Char) : Nat :=
  if 48 ≤ c.toNat ∧ c.toNat ≤ 57 then c.toNat - 48
  else if 97 ≤ c.toNat ∧ c.toNat ≤ 102 then c.toNat - 87
  else if 65 ≤ c.toNat ∧ c.toNat ≤ 70 then c.toNat - 55
  else 0

/-- bytesToHex (SessionManager.cpp lines 7-14): two lowercase hex digits per
byte, most significant nibble first. -/
def bytesToHex : List Nat → List Char
  | [] => []
  | b :: bs => hexDigitChar (b / 16) :: hexDigitChar (b % 16) :: bytesToHex bs

/-- hexToBytes (SessionManager.cpp lines 16-21): byte i is parsed from the two
characters at positions 2i and 2i+1. -/
def hexToBytes (hex : List Char) (len : Nat) : List Nat :=
  (List.range len).map (fun i => hexVal (hex.getD (2 * i) '0') * 16 + hexVal (hex.getD (2 * i + 1) '0'))

/-- The JSON object saveSession writes: exactly six keys (devAddr, nwkSKey,
appSKey, uplinkCounter, downlinkCounter, joined).  lastDevNonce and usedNonces
have no corresponding key. -/
structure SessionFile where
  devAddr : List Char
  nwkSKey : List Char
  appSKey : List Char
  uplinkCounter : Nat
  downlinkCounter : Nat
  joined : Bool
deriving DecidableEq

/-- SessionManager::saveSession (SessionManager.cpp lines 23-54): devAddr is
stored reversed as hex, the session keys as hex, the counters and the joined
flag as JSON numbers and boolean.  File-system success is abstracted away; the
value is the written object. -/
def SessionManager.saveSession (data : SessionData) : SessionFile :=
  { devAddr := bytesToHex data.devAddr.reverse
    nwkSKey := bytesToHex data.nwkSKey
    appSKey := bytesToHex data.appSKey
    uplinkCounter := data.uplinkCounter
    downlinkCounter := data.downlinkCounter
    joined := data.joined }

/-- SessionManager::loadSession (SessionManager.cpp lines 56-96) applied to a
parsed object holding all six keys saveSession writes: devAddr is parsed and
reversed back, the keys parsed as 16 bytes, joined copied; each counter is
read from cJSON's int field valueint (lines 85 and 88), which the parser
saturates at INT_MAX = 2^31 - 1, before landing in the uint32_t field; every
SessionData field without a key in the file -- lastDevNonce and usedNonces --
keeps the value already in the output structure. -/
def SessionManager.loadSession (f : SessionFile) (data : SessionData) : SessionData :=
  { data with
    devAddr := (hexToBytes f.devAddr 4).reverse
    nwkSKey := hexToBytes f.nwkSKey 16
    appSKey := hexToBytes f.appSKey 16
    uplinkCounter := min f.uplinkCounter (2 ^ 31 - 1)
    downlinkCounter := min f.downlinkCounter (2 ^ 31 - 1)
    joined := f.joined }

/-- Hex digits below 16 survive the encode/decode pair. -/
theorem hexVal_hexDigitChar : ∀ n < 16, hexVal (hexDigitChar n) = n := by decide

/-- The positions 2i and 2i+1 of the hex string hold the nibbles of byte i. -/
theorem bytesToHex_getD :
    ∀ (data : List Nat) (i : Nat), i < data.length →
      (bytesToHex data).getD (2 * i) '0' = hexDigitChar ((data.getD i 0) / 16) ∧
        (bytesToHex data).getD (2 * i + 1) '0' = hexDigitChar ((data.getD i 0) % 16) := by
  intro data
  induction data with
  | nil => intro i h; simp at h
  | cons b bs ih =>
    intro i h
    cases i with
    | zero => exact ⟨rfl, rfl⟩
    | succ j =>
      have hj : j < bs.length := by simpa using h
      have hrec := ih j hj
      have e1 : 2 * (j + 1) = 2 * j + 1 + 1 := by ring
      have e2 : 2 * (j + 1) + 1 = 2 * j + 1 + 1 + 1 := by ring
      simp only [bytesToHex, e1, e2, List.getD_cons_succ]
      exact hrec

/-- Round trip of the hex codec on byte lists. -/
theorem hexToBytes_bytesToHex (data : List Nat) (hlt : ∀ x ∈ data, x < 256) :
    hexToBytes (bytesToHex data) data.length = data := by
  apply List.ext_getElem
  · simp [hexToBytes]
  · intro i h1 h2
    have hi : i < data.length := h2
    have hb : data.getD i 0 < 256 := by
      rw [List.getD_eq_getElem data 0 hi]
      exact hlt _ (List.getElem_mem hi)
    have hpair := bytesToHex_getD data i hi
    simp only [hexToBytes, List.getElem_map, List.getElem_range]
    rw [hpair.1, hpair.2, hexVal_hexDigitChar _ (by omega),
      hexVal_hexDigitChar _ (by omega), List.getD_eq_getElem data 0 hi]
    omega

/-- Session with nonce history, to be saved. -/
def cexSaved : SessionData :=
  { devAddr := [0x26, 0x01, 0x1B, 0xDA]
    nwkSKey := List.replicate 16 0xAA
    appSKey := List.replicate 16 0xAA
    uplinkCounter := 7
    downlinkCounter := 2
    lastDevNonce := 5
    usedNonces := [1, 2]
    joined := true }

/-- Fresh in-memory session the file is loaded into. -/
def cexFresh : SessionData :=
  { devAddr := [0, 0, 0, 0]
    nwkSKey := zeros16
    appSKey := zeros16
    uplinkCounter := 0
    downlinkCounter := 0
    lastDevNonce := 0
    usedNonces := []
    joined := false }

/-- The saved session with its uplink counter raised above INT_MAX (reachable
through the public setUplinkCounter). -/
def cexBig : SessionData :=
  { cexSaved with uplinkCounter := 3000000000 }

/-- Claim C6 counterexample.  Saving a session with lastDevNonce = 5 and
usedNonces = [1, 2] and loading the file back leaves the loaded structure's
lastDevNonce at 0 and usedNonces empty: saveSession writes no key for either
field, so the DevNonce history the claim says is restored is lost.  Moreover
a saved uplinkCounter of 3000000000 comes back as INT_MAX = 2147483647: the
load path reads cJSON's int valueint, so even the counters the file does
define are not always restored. -/
theorem C6_roundtrip_counterexample :
    (SessionManager.loadSession (SessionManager.saveSession cexSaved) cexFresh).lastDevNonce
        = 0 ∧
      (SessionManager.loadSession (SessionManager.saveSession cexSaved) cexFresh).usedNonces
        = [] ∧
      cexSaved.lastDevNonce ≠ 0 ∧ cexSaved.usedNonces ≠ [] ∧
      (SessionManager.loadSession (SessionManager.saveSession cexBig) cexFresh).uplinkCounter
        = 2147483647 ∧
      cexBig.uplinkCounter = 3000000000 := by
  decide

/-- Claim C6 amended.  loadSession after saveSession restores the six fields
the written file defines -- devAddr (byte-reversed on save and re-reversed on
load), NwkSKey, AppSKey and joined exactly, and each counter clamped to
INT_MAX = 2^31 - 1 because the load path reads cJSON's saturating int field
valueint, so a counter is restored exactly when it is at most 2147483647 --
while lastDevNonce and the usedNonces DevNonce history are not part of the
file and keep whatever values the in-memory target structure already had. -/
theorem C6_session_roundtrip_amended (s t : SessionData)
    (hd : s.devAddr.length = 4) (hdlt : ∀ x ∈ s.devAddr, x < 256)
    (hn : s.nwkSKey.length = 16) (hnlt : ∀ x ∈ s.nwkSKey, x < 256)
    (ha : s.appSKey.length = 16) (halt : ∀ x ∈ s.appSKey, x < 256) :
    SessionManager.loadSession (SessionManager.saveSession s) t =
      { t with
        devAddr := s.devAddr
        nwkSKey := s.nwkSKey
        appSKey := s.appSKey
        uplinkCounter := min s.uplinkCounter (2 ^ 31 - 1)
        downlinkCounter := min s.downlinkCounter (2 ^ 31 - 1)
        joined := s.joined } := by
  have hdrev : s.devAddr.reverse.length = 4 := by rw [List.length_reverse, hd]
  have h1 : hexToBytes (bytesToHex s.devAddr.reverse) 4 = s.devAddr.reverse := by
    rw [← hdrev]
    exact hexToBytes_bytesToHex s.devAddr.reverse
      (fun x hx => hdlt x (List.mem_reverse.mp hx))
  have h2 : hexToBytes (bytesToHex s.nwkSKey) 16 = s.nwkSKey := by
    rw [← hn]
    exact hexToBytes_bytesToHex s.nwkSKey hnlt
  have h3 : hexToBytes (bytesToHex s.appSKey) 16 = s.appSKey := by
    rw [← ha]
    exact hexToBytes_bytesToHex s.appSKey halt
  simp only [SessionManager.loadSession, SessionManager.saveSession, h1, h2, h3,
    List.reverse_reverse]

/-- Witness for the amended C6 at concrete sessions. -/
theorem C6_session_roundtrip_amended_witness :
    cexSaved.devAddr.length = 4 ∧ cexSaved.nwkSKey.length = 16 ∧
      cexSaved.appSKey.length = 16 ∧
      SessionManager.loadSession (SessionManager.saveSession cexSaved) cexFresh =
        { cexFresh with
          devAddr := cexSaved.devAddr
          nwkSKey := cexSaved.nwkSKey
          appSKey := cexSaved.appSKey
          uplinkCounter := min cexSaved.uplinkCounter (2 ^ 31 - 1)
          downlinkCounter := min cexSaved.downlinkCounter (2 ^ 31 - 1)
          joined := cexSaved.joined } :=
  ⟨by decide, by decide, by decide,
    C6_session_roundtrip_amended cexSaved cexFresh (by decide) (by decide) (by decide)
      (by decide) (by decide) (by decide)⟩

/-!
MAC-command engine (LoRaWAN.cpp).  LoRaWAN::processMACCommands (lines
2009-2186) and LoRaWAN::processLinkADRReq (lines 2188-2494).  Frequencies and
bandwidths (C++ float) are modelled as exact rationals; the radio's SNR
reading consumed by DevStatusReq is an integer parameter.
-/

/-- Region indices (LoRaWAN.hpp lines 80-83). -/
def REGION_EU868 : Nat := 0

/-- US915 region index. -/
def REGION_US915 : Nat := 1

/-- AU915 region index. -/
def REGION_AU915 : Nat := 2

/-- EU433 region index. -/
def REGION_EU433 : Nat := 3

/-- Maximum transmit power per region in dBm (LoRaWAN.hpp lines 683-688). -/
def MAX_POWER : List Int := [14, 30, 30, 14]

/-- Base frequencies per region in MHz (LoRaWAN.hpp lines 667-672). -/
def BASE_FREQ : List ℚ := [868.1, 902.3, 915.2, 433.175]

/-- Channel steps per region in MHz (LoRaWAN.hpp lines 675-680). -/
def CHANNEL_STEP : List ℚ := [0.2, 0.2, 0.2, 0.2]

/-- Fields of LoRaWAN touched by the MAC-command engine. -/
structure MacState where
  lora_region : Nat
  rx1DrOffset : Nat
  rx2DataRate : Nat
  current_sf : Nat
  current_bw : ℚ
  txPower : Int
  current_nbRep : Nat
  adrAckCounter : Nat
  channelFrequencies : List ℚ
deriving DecidableEq

/-- LoRaWAN::processLinkADRReq (LoRaWAN.cpp lines 2188-2494).  The C++
receives the full command buffer and the absolute index of the command byte
and reads cmd[index+1] .. cmd[index+4]; here the buffer suffix starting at the
command byte stands in for (cmd, index), so those reads are positions 1-4 of
s and the guard index + 4 >= cmd.size() becomes s.length <= 4.  Validates
data rate, TX power and channel mask against the region, applies the settings
atomically when all three validations pass (status 0b111), and appends
LinkADRAns (0x03, status).  In the apply branch the EU868 dr > 7 sub-branch
(which would re-clear the data-rate bit and leave sf uninitialized) is
unreachable, because status = 0b111 requires dr at most maxDR = 7. -/
def LoRaWAN.processLinkADRReq (s : List Nat) (response : List Nat)
    (st : MacState) : List Nat × MacState :=
  if s.length ≤ 4 then (response, st)
  else
    let datarate_txpower := s.getD 1 0
    let dr := (datarate_txpower >>> 4) &&& 0x0F
    let txpower := datarate_txpower &&& 0x0F
    let chmask := (s.getD 3 0 <<< 8) ||| s.getD 2 0
    let redundancy := s.getD 4 0
    let chmaskcntl := (redundancy >>> 4) &&& 0x07
    let nbRep0 := redundancy &&& 0x0F
    let nbRep1 := if nbRep0 < 1 then 1 else nbRep0
    let nbRep := if nbRep1 > 15 then 15 else nbRep1
    let maxDR : Nat :=
      if st.lora_region = REGION_US915 ∨ st.lora_region = REGION_AU915 then 4
      else if st.lora_region = REGION_EU868 ∨ st.lora_region = REGION_EU433 then 7
      else 5
    let status1 : Nat := if dr > maxDR then 7 &&& 0xFB else 7
    let maxPower : Int := if st.lora_region = REGION_US915 then 10 else 7
    let status2 :=
      if st.lora_region = REGION_EU868 ∧ txpower > 7 then status1 &&& 0xFD else status1
    let status3 := if (txpower : Int) > maxPower then status2 &&& 0xFD else status2
    let vm : Bool × Nat :=
      if st.lora_region = REGION_EU868 then
        if chmaskcntl > 5 then (false, chmask)
        else if chmaskcntl = 0 then (true, chmask)
        else if chmaskcntl = 1 then (true, 0xFFFF)
        else if chmaskcntl = 2 then (true, 0x0000)
        else if chmaskcntl = 3 then (true, chmask ||| (1 <<< 15))
        else if chmaskcntl = 4 then (true, chmask &&& 0x7FFF)
        else (false, chmask)
      else if st.lora_region = REGION_US915 then
        (¬ (chmaskcntl = 7 ∧ chmask = 0), chmask)
      else (false, chmask)
    let validChannelMask := vm.1
    let status := if validChannelMask then status3 else status3 &&& 0xFE
    let st2 :=
      if status = 7 then
        let sf : Nat :=
          if st.lora_region = REGION_EU868 then
            if dr < 6 then 12 - dr else if dr = 6 then 7 else 7
          else if st.lora_region = REGION_US915 then
            if dr ≤ 3 then 10 - dr else 8
          else if dr ≤ 6 then 12 - dr else 7
        let bw : ℚ :=
          if st.lora_region = REGION_EU868 then
            if dr < 6 then 125 else if dr = 6 then 250 else 125
          else if st.lora_region = REGION_US915 then
            if dr ≤ 3 then 125 else 500
          else if dr = 6 then 250 else 125
        let power0 : Int :=
          if st.lora_region = REGION_US915 then 30 - txpower * 2
          else (MAX_POWER.getD st.lora_region 0) - txpower * 2
        let sf1 := if sf < 7 then 7 else if sf > 12 then 12 else sf
        let power1 := if power0 < 2 then 2 else power0
        let power :=
          if power1 > MAX_POWER.getD st.lora_region 0 then MAX_POWER.getD st.lora_region 0
          else power1
        let chans :=
          if validChannelMask ∧ st.lora_region = REGION_EU868 ∧ chmaskcntl = 0 then
            (List.range 16).map (fun i =>
              if i < 8 then
                if vm.2 &&& (1 <<< i) ≠ 0 then
                  BASE_FREQ.getD st.lora_region 0 + i * CHANNEL_STEP.getD st.lora_region 0
                else 0
              else st.channelFrequencies.getD i 0)
          else st.channelFrequencies
        { st with
          current_sf := sf1
          current_bw := bw
          txPower := power
          channelFrequencies := chans
          current_nbRep := if nbRep > 0 then nbRep else st.current_nbRep
          adrAckCounter := 0 }
      else st
    (response ++ [0x03, status], st2)

/-- The LinkADRAns appended by processLinkADRReq extends the response. -/
theorem processLinkADRReq_fst (s resp : List Nat) (st : MacState) :
    ∃ e, (LoRaWAN.processLinkADRReq s resp st).1 = resp ++ e := by
  rw [LoRaWAN.processLinkADRReq]
  split
  · exact ⟨[], by simp⟩
  · exact ⟨_, rfl⟩

/-- Loop of LoRaWAN::processMACCommands (LoRaWAN.cpp lines 2021-2185).  The
C++ while loop walks an index through the command buffer, consuming at least
one byte per iteration; the unconsumed suffix commands[index..] stands in for
the index, and the first argument is the iteration budget (the loop executes
at most commands.size() iterations).  The bounds checks index < size,
index + 1 < size, index + 3 <= size and index + 4 <= size become comparisons
against the suffix length.  RxParamSetupReq checks index + 3 <= size but then
consumes four parameter bytes, so at suffix length exactly 4 its last read is
one past the end of the buffer, modelled as 0.  The default case only logs
the unrecognized CID and continues parsing at the next byte. -/
def LoRaWAN.macLoop (snr : Int) :
    Nat → List Nat → List Nat → MacState → List Nat × MacState
  | 0, _, response, st => (response, st)
  | fuel + 1, s, response, st =>
    match s with
    | [] => (response, st)
    | cmd :: t =>
      if cmd = 0x03 then
        if 4 ≤ t.length then
          let rs := LoRaWAN.processLinkADRReq (cmd :: t) response st
          LoRaWAN.macLoop snr fuel (t.drop 4) rs.1 rs.2
        else LoRaWAN.macLoop snr fuel t response st
      else if cmd = 0x04 then
        if 1 ≤ t.length then
          LoRaWAN.macLoop snr fuel (t.drop 1) (response ++ [0x04]) st
        else LoRaWAN.macLoop snr fuel t response st
      else if cmd = 0x06 then
        let margin : Int := max (-32) (min 31 snr)
        LoRaWAN.macLoop snr fuel t
          (response ++ [0x06, 254, ((margin + 256) % 256).toNat]) st
      else if cmd = 0x02 then
        if 2 ≤ t.length then
          LoRaWAN.macLoop snr fuel (t.drop 2) response st
        else LoRaWAN.macLoop snr fuel t response st
      else if cmd = 0x05 then
        if 3 ≤ t.length then
          let dlSettings := t.getD 0 0
          let fmsb := t.getD 1 0
          let fmid := t.getD 2 0
          let flsb := t.getD 3 0
          let rx1 := (dlSettings >>> 4) &&& 0x07
          let rx2 := dlSettings &&& 0x0F
          let freq_value := (fmsb <<< 16) ||| (fmid <<< 8) ||| flsb
          let rx2_freq : ℚ := (freq_value : ℚ) / 10000
          let maxDR : Nat := if st.lora_region = REGION_US915 then 4 else 7
          let s1 : Nat := if rx1 > 7 then 7 &&& 0xFB else 7
          let s2 := if rx2 > maxDR then s1 &&& 0xFD else s1
          let status := if rx2_freq < 100 ∨ 1000 < rx2_freq then s2 &&& 0xFE else s2
          LoRaWAN.macLoop snr fuel (t.drop 4)
            (response ++ [0x05, status])
            { st with rx1DrOffset := rx1, rx2DataRate := rx2 }
        else LoRaWAN.macLoop snr fuel t response st
      else LoRaWAN.macLoop snr fuel t response st

/-- LoRaWAN::processMACCommands (LoRaWAN.cpp lines 2009-2186). -/
def LoRaWAN.processMACCommands (snr : Int) (commands response : List Nat)
    (st : MacState) : List Nat × MacState :=
  LoRaWAN.macLoop snr commands.length commands response st

/-- Baseline MAC state for witnesses and counterexamples. -/
def macState0 : MacState :=
  { lora_region := 0
    rx1DrOffset := 0
    rx2DataRate := 0
    current_sf := 9
    current_bw := 125
    txPower := 14
    current_nbRep := 1
    adrAckCounter := 0
    channelFrequencies := List.replicate 16 0 }

/-- Claim C7 counterexample.  On the command bytes 0x20 0x04 0x05 the first
byte is an unsupported CID; the claim says parsing of the remainder stops, so
no answer could be generated, yet the code continues, interprets 0x04 0x05 as
a DutyCycleReq and appends DutyCycleAns: the response is [0x04], not []. -/
theorem C7_unknown_cid_counterexample :
    (LoRaWAN.processMACCommands 0 [0x20, 0x04, 0x05] [] macState0).1 = [0x04] ∧
      ([0x04] : List Nat) ≠ [] := by
  decide

theorem macLoop_resp_prefix (snr : Int) :
    ∀ (fuel : Nat) (s resp : List Nat) (st : MacState),
      ∃ e, (LoRaWAN.macLoop snr fuel s resp st).1 = resp ++ e := by
  intro fuel
  induction fuel with
  | zero => intro s resp st; exact ⟨[], by simp [LoRaWAN.macLoop]⟩
  | succ k ih =>
    intro s resp st
    match s with
    | [] => exact ⟨[], by simp [LoRaWAN.macLoop]⟩
    | cmd :: t =>
      have ext : ∀ (x : List Nat) (s2 : List Nat) (st2 : MacState),
          ∃ e, (LoRaWAN.macLoop snr k s2 (resp ++ x) st2).1 = resp ++ e := by
        intro x s2 st2
        obtain ⟨e, he⟩ := ih s2 (resp ++ x) st2
        exact ⟨x ++ e, by rw [he, List.append_assoc]⟩
      rw [LoRaWAN.macLoop]
      split_ifs
      all_goals try exact ih t resp st
      all_goals try exact ih (t.drop 2) resp st
      all_goals try exact ext [0x04] (t.drop 1) st
      all_goals try exact ext _ t st
      all_goals try exact ext _ (t.drop 4) _
      all_goals
        obtain ⟨e1, he1⟩ := processLinkADRReq_fst (cmd :: t) resp st
        obtain ⟨e2, he2⟩ := ih (t.drop 4)
          (LoRaWAN.processLinkADRReq (cmd :: t) resp st).1
          (LoRaWAN.processLinkADRReq (cmd :: t) resp st).2
        exact ⟨e1 ++ e2, by rw [he2, he1, List.append_assoc]⟩

/-- Claim C7 amended.  An unsupported CID does NOT stop parsing: the byte is
skipped and the remainder of the sequence is processed exactly as if it were
the whole command list (so later bytes ARE interpreted as commands), and every
answer byte already appended to the response before that point is retained
(the response only ever grows by appending). -/
theorem C7_unknown_cid_amended (snr : Int) (c : Nat) (rest commands resp : List Nat)
    (st : MacState) (hc : c ∉ ([0x02, 0x03, 0x04, 0x05, 0x06] : List Nat)) :
    LoRaWAN.processMACCommands snr (c :: rest) resp st =
        LoRaWAN.processMACCommands snr rest resp st ∧
      ∃ e, (LoRaWAN.processMACCommands snr commands resp st).1 = resp ++ e := by
  constructor
  · simp only [List.mem_cons, List.mem_singleton] at hc
    push_neg at hc
    obtain ⟨h2, h3, h4, h5, h6, -⟩ := hc
    show LoRaWAN.macLoop snr (c :: rest).length (c :: rest) resp st =
      LoRaWAN.macLoop snr rest.length rest resp st
    rw [List.length_cons, LoRaWAN.macLoop, if_neg h3, if_neg h4, if_neg h6, if_neg h2,
      if_neg h5]
  · exact macLoop_resp_prefix snr commands.length commands resp st

/-- Witness for the amended C7: the unknown CID 0x20 followed by a DutyCycleReq. -/
theorem C7_unknown_cid_amended_witness :
    (0x20 ∉ ([0x02, 0x03, 0x04, 0x05, 0x06] : List Nat)) ∧
      (LoRaWAN.processMACCommands 0 (0x20 :: [0x04, 0x05]) [] macState0 =
          LoRaWAN.processMACCommands 0 [0x04, 0x05] [] macState0 ∧
        ∃ e, (LoRaWAN.processMACCommands 0 [0x06, 0x09] [] macState0).1 = [] ++ e) :=
  ⟨by decide, C7_unknown_cid_amended 0 0x20 [0x04, 0x05] [0x06, 0x09] [] macState0 (by decide)⟩

/-!
Uplink transmission (LoRaWAN.cpp lines 1194-1551).  LoRaWAN::send restricted
to the session counters and confirmation state it mutates: radio
configuration, frame assembly and the duty-cycle sleep do not change these
fields, and the radio transmission result rfm->send(packet) is the Boolean
input radioOk.  setupRxWindows touches only radio-shadow fields outside this
record; of updateTxParamsForADR only its reset of adrAckCounter lands in the
record, modelled below.
-/

/-- ConfirmationState enum (LoRaWAN.hpp). -/
inductive ConfirmationState where
  | NONE
  | WAITING_ACK
  | ACK_PENDING
deriving DecidableEq

/-- Fields of LoRaWAN mutated by send. -/
structure SendState where
  joined : Bool
  confirmState : ConfirmationState
  uplinkCounter : Nat
  adrEnabled : Bool
  adrAckCounter : Nat
  needsAck : Bool
  confirmRetries : Nat
  pendingMACResponses : List Nat
  pendingAck : List Nat
  ackPort : Nat
deriving DecidableEq

/-- LoRaWAN::send (LoRaWAN.cpp lines 1194-1551).  Refuses when not joined
(line 1195) or when a confirmed send is requested while an ACK is pending
(lines 1198-1201).  Up to 15 pending MAC response bytes are consumed into
FOpts before transmission (lines 1302-1356).  On radio success the uplink
counter is incremented as a 32-bit unsigned (line 1469), the ADR counter (a
uint8_t) is bumped when ADR is enabled and, once it exceeds
ADR_ACK_LIMIT + ADR_ACK_DELAY = 96, reset to ADR_ACK_LIMIT = 64 by
updateTxParamsForADR (lines 1476-1483 and 2548), a confirmed send enters
WAITING_ACK with one more retry and stashes the payload (lines 1533-1542),
and a carried ACK bit resets the confirmation state (lines 1544-1548).  On
radio failure those updates are skipped.  force_duty_cycle only selects
whether the call sleeps, which changes no modelled field. -/
def LoRaWAN.send (data : List Nat) (port : Nat)
    (confirmed force_duty_cycle radioOk : Bool) (st : SendState) : Bool × SendState :=
  if ¬ st.joined then (false, st)
  else if confirmed ∧ st.confirmState = ConfirmationState.WAITING_ACK then (false, st)
  else
    let _ := force_duty_cycle
    let ackbit := st.confirmState = ConfirmationState.ACK_PENDING
    let st1 :=
      if st.pendingMACResponses ≠ [] then
        { st with pendingMACResponses :=
            st.pendingMACResponses.drop (min 15 st.pendingMACResponses.length) }
      else st
    if radioOk then
      let st2 := { st1 with uplinkCounter := (st1.uplinkCounter + 1) % 2 ^ 32 }
      let st3 :=
        if st2.adrEnabled then
          let a := (st2.adrAckCounter + 1) % 256
          { st2 with adrAckCounter := if 96 < a then 64 else a }
        else st2
      let st4 :=
        if confirmed then
          { st3 with
            confirmState := ConfirmationState.WAITING_ACK
            confirmRetries := st3.confirmRetries + 1
            pendingAck := data
            ackPort := port }
        else st3
      let st5 :=
        if ackbit then
          { st4 with
            confirmState := ConfirmationState.NONE
            confirmRetries := 0
            pendingAck := []
            ackPort := 0
            needsAck := false }
        else st4
      (true, st5)
    else (false, st1)

/-- A sequence of send calls; each entry carries data, port, confirmed,
force_duty_cycle and the radio outcome.  Returns the number of successful
transmissions and the final state. -/
def LoRaWAN.runSends :
    List (List Nat × Nat × Bool × Bool × Bool) → SendState → Nat × SendState
  | [], st => (0, st)
  | (data, port, confirmed, force, radioOk) :: rest, st =>
    let r := LoRaWAN.send data port confirmed force radioOk st
    let r2 := LoRaWAN.runSends rest r.2
    ((if r.1 then 1 else 0) + r2.1, r2.2)

set_option maxHeartbeats 1000000 in
theorem send_fst (data : List Nat) (port : Nat) (confirmed force radioOk : Bool)
    (st : SendState) :
    ((LoRaWAN.send data port confirmed force radioOk st).1 = true ↔
      st.joined = true ∧
        ¬ (confirmed = true ∧ st.confirmState = ConfirmationState.WAITING_ACK) ∧
        radioOk = true) := by
  simp only [LoRaWAN.send]
  split_ifs <;> simp_all

set_option maxHeartbeats 1000000 in
theorem send_counter_success (data : List Nat) (port : Nat)
    (confirmed force radioOk : Bool) (st : SendState)
    (h : (LoRaWAN.send data port confirmed force radioOk st).1 = true) :
    (LoRaWAN.send data port confirmed force radioOk st).2.uplinkCounter =
      (st.uplinkCounter + 1) % 2 ^ 32 := by
  obtain ⟨hj, hw, hr⟩ := (send_fst data port confirmed force radioOk st).mp h
  simp [LoRaWAN.send, hj, hw, hr, apply_ite SendState.uplinkCounter]

set_option maxHeartbeats 1000000 in
theorem send_counter_failure (data : List Nat) (port : Nat)
    (confirmed force radioOk : Bool) (st : SendState)
    (h : (LoRaWAN.send data port confirmed force radioOk st).1 = false) :
    (LoRaWAN.send data port confirmed force radioOk st).2.uplinkCounter =
      st.uplinkCounter := by
  by_cases hj : st.joined = true
  · by_cases hw : confirmed = true ∧ st.confirmState = ConfirmationState.WAITING_ACK
    · simp [LoRaWAN.send, hj, hw]
    · by_cases hr : radioOk = true
      · exact absurd ((send_fst data port confirmed force radioOk st).mpr ⟨hj, hw, hr⟩)
          (by simp [h])
      · simp [LoRaWAN.send, hj, hw, hr, apply_ite SendState.uplinkCounter]
  · simp [LoRaWAN.send, hj]

theorem runSends_counter (calls : List (List Nat × Nat × Bool × Bool × Bool)) :
    ∀ (st : SendState),
      st.uplinkCounter + (LoRaWAN.runSends calls st).1 < 2 ^ 32 →
      (LoRaWAN.runSends calls st).2.uplinkCounter =
        st.uplinkCounter + (LoRaWAN.runSends calls st).1 := by
  induction calls with
  | nil => intro st h; rfl
  | cons call rest ih =>
    intro st h
    obtain ⟨data, port, confirmed, force, radioOk⟩ := call
    by_cases hs : (LoRaWAN.send data port confirmed force radioOk st).1 = true
    · have hstep := send_counter_success data port confirmed force radioOk st hs
      simp only [LoRaWAN.runSends, hs, if_true] at h ⊢
      have h1 : st.uplinkCounter + 1 < 2 ^ 32 := by omega
      rw [Nat.mod_eq_of_lt h1] at hstep
      have hih := ih (LoRaWAN.send data port confirmed force radioOk st).2
        (by rw [hstep]; omega)
      rw [hih, hstep]
      omega
    · have hstep := send_counter_failure data port confirmed force radioOk st
        (by simpa using hs)
      simp only [LoRaWAN.runSends, if_neg hs] at h ⊢
      have hih := ih (LoRaWAN.send data port confirmed force radioOk st).2
        (by rw [hstep]; omega)
      rw [hih, hstep]
      omega

/-- Claim C8 (FCntUp monotonicity).  A send succeeds exactly when the device
is joined, no confirmed send is requested while an ACK is awaited, and the
radio transmission succeeds; a successful send increments uplinkCounter by
exactly one (as an unsigned 32-bit value), a failed send leaves it unchanged;
hence over any call sequence whose success count does not overflow the 32-bit
counter, the final counter has increased by exactly the number of successes
and never decreases. -/
theorem C8_fcntup_monotonicity (data : List Nat) (port : Nat)
    (confirmed force radioOk : Bool) (st : SendState)
    (calls : List (List Nat × Nat × Bool × Bool × Bool))
    (hover : st.uplinkCounter + (LoRaWAN.runSends calls st).1 < 2 ^ 32) :
    ((LoRaWAN.send data port confirmed force radioOk st).1 = true ↔
        st.joined = true ∧
          ¬ (confirmed = true ∧ st.confirmState = ConfirmationState.WAITING_ACK) ∧
          radioOk = true) ∧
      ((LoRaWAN.send data port confirmed force radioOk st).1 = true →
        (LoRaWAN.send data port confirmed force radioOk st).2.uplinkCounter =
          (st.uplinkCounter + 1) % 2 ^ 32) ∧
      ((LoRaWAN.send data port confirmed force radioOk st).1 = false →
        (LoRaWAN.send data port confirmed force radioOk st).2.uplinkCounter =
          st.uplinkCounter) ∧
      (LoRaWAN.runSends calls st).2.uplinkCounter =
        st.uplinkCounter + (LoRaWAN.runSends calls st).1 ∧
      st.uplinkCounter ≤ (LoRaWAN.runSends calls st).2.uplinkCounter :=
  ⟨send_fst data port confirmed force radioOk st,
    send_counter_success data port confirmed force radioOk st,
    send_counter_failure data port confirmed force radioOk st,
    runSends_counter calls st hover,
    by rw [runSends_counter calls st hover]; omega⟩

/-- Joined baseline state for the send witnesses. -/
def sendState0 : SendState :=
  { joined := true
    confirmState := ConfirmationState.NONE
    uplinkCounter := 7
    adrEnabled := true
    adrAckCounter := 0
    needsAck := false
    confirmRetries := 0
    pendingMACResponses := []
    pendingAck := []
    ackPort := 0 }

/-- Witness for C8: one successful unconfirmed send followed by a failed one. -/
theorem C8_fcntup_monotonicity_witness :
    sendState0.uplinkCounter +
        (LoRaWAN.runSends [([1], 1, false, false, true), ([2], 1, true, false, false)]
          sendState0).1 < 2 ^ 32 ∧
      (LoRaWAN.runSends [([1], 1, false, false, true), ([2], 1, true, false, false)]
          sendState0).2.uplinkCounter =
        sendState0.uplinkCounter +
          (LoRaWAN.runSends [([1], 1, false, false, true), ([2], 1, true, false, false)]
            sendState0).1 :=
  ⟨by decide,
    (C8_fcntup_monotonicity [1] 1 false false true sendState0
      [([1], 1, false, false, true), ([2], 1, true, false, false)]
      (by decide)).2.2.2.1⟩

/-!
Duty-cycle accountant (LoRaWAN.cpp lines 1123-1192).  Timestamps of the
steady clock and air times (C++ float ms) are modelled as exact rationals;
the air time itself is produced by calculateTimeOnAir from the radio
parameters and enters checkDutyCycle as a value, so it is an input here.
-/

/-- Fields of LoRaWAN used by the duty-cycle accountant. -/
structure DutyState where
  channelFrequencies : List ℚ
  lastChannelUse : List ℚ
  channelAirTime : List ℚ
deriving DecidableEq

/-- Channel lookup of checkDutyCycle (LoRaWAN.cpp lines 1125-1136): the first
of the 16 channels whose frequency is within 0.01 MHz, falling back to
channel 0. -/
def LoRaWAN.findChannel (freqs : List ℚ) (frequency : ℚ) : Nat :=
  (((List.range 16).find? (fun i => |frequency - freqs.getD i 0| < 1 / 100)).getD 0)

/-- LoRaWAN::checkDutyCycle (LoRaWAN.cpp lines 1123-1165): elapsed time since
the channel's last use is compared against the required wait
airTime / 0.01 - airTime; when insufficient the call refuses and changes
nothing, otherwise the channel's last-use timestamp is set to now and its
air-time ledger increased by airTime (the ledger is never decreased). -/
def LoRaWAN.checkDutyCycle (ds : DutyState) (now frequency airTime : ℚ) :
    Bool × DutyState :=
  let channel := LoRaWAN.findChannel ds.channelFrequencies frequency
  let elapsed := now - ds.lastChannelUse.getD channel 0
  let minWaitTime := airTime / (1 / 100) - airTime
  if elapsed < minWaitTime then (false, ds)
  else
    (true,
      { ds with
        lastChannelUse := ds.lastChannelUse.set channel now
        channelAirTime := ds.channelAirTime.set channel
          (ds.channelAirTime.getD channel 0 + airTime) })

/-- One recorded call of checkDutyCycle: outcome, timestamp, frequency, air
time. -/
structure DutyEvent where
  allowed : Bool
  time : ℚ
  freq : ℚ
  tair : ℚ
deriving DecidableEq

/-- Run a sequence of checkDutyCycle calls, recording each outcome. -/
def LoRaWAN.runDuty : List (ℚ × ℚ × ℚ) → DutyState → List DutyEvent × DutyState
  | [], ds => ([], ds)
  | (now, freq, tair) :: rest, ds =>
    let r := LoRaWAN.checkDutyCycle ds now freq tair
    let r2 := LoRaWAN.runDuty rest r.2
    ({ allowed := r.1, time := now, freq := freq, tair := tair } :: r2.1, r2.2)

/-- Air time of the allowed transmissions lying wholly inside the window
[lo, hi]. -/
def windowAirtime (events : List DutyEvent) (lo hi : ℚ) : ℚ :=
  (events.filter (fun e => e.allowed ∧ lo ≤ e.time ∧ e.time + e.tair ≤ hi)).foldl
    (fun a e => a + e.tair) 0

/-- Duty state after resetDutyCycle at clock value -86400000 ms (24 h before
time zero, LoRaWAN.cpp lines 1186-1192), with only channel 0 active at the
EU868 default frequency. -/
def dutyState0 : DutyState :=
  { channelFrequencies := 868.1 :: List.replicate 15 0
    lastChannelUse := List.replicate 16 (-86400000)
    channelAirTime := List.replicate 16 0 }

/-- Five transmissions of 8030 ms air time (SF12, a full-length frame) spaced
by exactly the required gap 8030 / 0.01 - 8030 = 794970 ms. -/
def dutyCalls5 : List (ℚ × ℚ × ℚ) :=
  [(0, 868.1, 8030), (794970, 868.1, 8030), (1589940, 868.1, 8030),
   (2384910, 868.1, 8030), (3179880, 868.1, 8030)]

theorem getD_set_self (l : List ℚ) (n : Nat) (a : ℚ) (h : n < l.length) :
    (l.set n a).getD n 0 = a := by
  rw [List.getD_eq_getElem _ _ (by simpa using h)]
  exact List.getElem_set_self (by simpa using h)

/-- Claim C9 amended.  Without force_duty_cycle, checkDutyCycle allows a
transmission exactly when the time elapsed since the channel's last recorded
use reaches the required gap airTime / 0.01 - airTime; a blocked call leaves
the whole state untouched; an allowed call stamps the channel with now and
only ever adds to the per-channel air-time ledger (the ledger never decays);
consequently two consecutively allowed transmissions on the same channel are
separated by at least the second one's required gap.  The trailing-hour
36000 ms ceiling asserted by the claim does not follow and is refuted by the
counterexample. -/
theorem C9_duty_gate_amended (ds : DutyState) (now frequency airTime t2 T2 : ℚ)
    (hlen : LoRaWAN.findChannel ds.channelFrequencies frequency <
      ds.lastChannelUse.length) :
    ((LoRaWAN.checkDutyCycle ds now frequency airTime).1 = true ↔
        airTime / (1 / 100) - airTime ≤
          now - ds.lastChannelUse.getD
            (LoRaWAN.findChannel ds.channelFrequencies frequency) 0) ∧
      ((LoRaWAN.checkDutyCycle ds now frequency airTime).1 = false →
        (LoRaWAN.checkDutyCycle ds now frequency airTime).2 = ds) ∧
      ((LoRaWAN.checkDutyCycle ds now frequency airTime).1 = true →
        (LoRaWAN.checkDutyCycle ds now frequency airTime).2.lastChannelUse =
            ds.lastChannelUse.set
              (LoRaWAN.findChannel ds.channelFrequencies frequency) now ∧
          (LoRaWAN.checkDutyCycle ds now frequency airTime).2.channelAirTime =
            ds.channelAirTime.set (LoRaWAN.findChannel ds.channelFrequencies frequency)
              (ds.channelAirTime.getD
                (LoRaWAN.findChannel ds.channelFrequencies frequency) 0 + airTime)) ∧
      ((LoRaWAN.checkDutyCycle ds now frequency airTime).1 = true →
        (LoRaWAN.checkDutyCycle (LoRaWAN.checkDutyCycle ds now frequency airTime).2
            t2 frequency T2).1 = true →
          T2 / (1 / 100) - T2 ≤ t2 - now) := by
  refine ⟨?_, ?_, ?_, ?_⟩
  · rw [LoRaWAN.checkDutyCycle]
    split
    · next h => exact iff_of_false (by simp) (not_le.mpr h)
    · next h => exact iff_of_true rfl (not_lt.mp h)
  · rw [LoRaWAN.checkDutyCycle]
    split
    · intro _; rfl
    · intro h; simp at h
  · rw [LoRaWAN.checkDutyCycle]
    split
    · intro h; simp at h
    · intro _; exact ⟨rfl, rfl⟩
  · intro h1 h2
    have hnot : ¬ (now - ds.lastChannelUse.getD
        (LoRaWAN.findChannel ds.channelFrequencies frequency) 0 <
          airTime / (1 / 100) - airTime) := by
      intro hlt
      rw [LoRaWAN.checkDutyCycle, if_pos hlt] at h1
      simp at h1
    have heq : LoRaWAN.checkDutyCycle ds now frequency airTime =
        (true,
          { ds with
            lastChannelUse := ds.lastChannelUse.set
              (LoRaWAN.findChannel ds.channelFrequencies frequency) now
            channelAirTime := ds.channelAirTime.set
              (LoRaWAN.findChannel ds.channelFrequencies frequency)
              (ds.channelAirTime.getD
                (LoRaWAN.findChannel ds.channelFrequencies frequency) 0 + airTime) }) := by
      rw [LoRaWAN.checkDutyCycle, if_neg hnot]
    rw [heq] at h2
    simp only [LoRaWAN.checkDutyCycle] at h2
    rw [getD_set_self _ _ _ hlen] at h2
    by_cases hlt : t2 - now < T2 / (1 / 100) - T2
    · rw [if_pos hlt] at h2
      simp at h2
    · exact not_lt.mp hlt

set_option maxHeartbeats 1000000 in
/-- Frequency 868.1 resolves to channel 0 in the EU868 single-active-channel
plan. -/
theorem findChannel_dutyState0 :
    LoRaWAN.findChannel (868.1 :: List.replicate 15 0) 868.1 = 0 := by
  have hp : (fun i =>
      decide (|(868.1 : ℚ) - (868.1 :: List.replicate 15 0).getD i 0| < 1 / 100)) 0 = true := by
    simp only [List.getD_cons_zero]
    exact decide_eq_true (by norm_num)
  have hfind : List.find?
      (fun i => decide (|(868.1 : ℚ) - (868.1 :: List.replicate 15 0).getD i 0| < 1 / 100))
      (List.range 16) = some 0 := by
    rw [show List.range 16 = 0 :: [1, 2, 3, 4, 5, 6, 7, 8, 9, 10, 11, 12, 13, 14, 15]
      by decide]
    exact List.find?_cons_of_pos _ hp
  rw [LoRaWAN.findChannel, hfind]
  rfl

/-- One allowed checkDutyCycle call on channel 0 of the single-channel EU868
plan, with explicit before and after states. -/
theorem check_868 (t0 a0 a1 now T : ℚ) (h : ¬ (now - t0 < T / (1 / 100) - T))
    (ha : a0 + T = a1) :
    LoRaWAN.checkDutyCycle
        ⟨868.1 :: List.replicate 15 0, t0 :: List.replicate 15 (-86400000),
          a0 :: List.replicate 15 0⟩ now 868.1 T =
      (true,
        ⟨868.1 :: List.replicate 15 0, now :: List.replicate 15 (-86400000),
          a1 :: List.replicate 15 0⟩) := by
  rw [LoRaWAN.checkDutyCycle]
  simp only [findChannel_dutyState0, List.getD_cons_zero, List.set_cons_zero, if_neg h, ha]

/-- Claim C9 counterexample.  All five calls pass the duty-cycle gate, each
transmission starts and ends inside the hour window [0 ms, 3600000 ms], and
their accumulated air time on channel 0 is 40150 ms, exceeding the claimed
36000 ms (1 percent of one hour) ceiling. -/
theorem C9_duty_window_counterexample :
    (LoRaWAN.runDuty dutyCalls5 dutyState0).1 =
        [⟨true, 0, 868.1, 8030⟩, ⟨true, 794970, 868.1, 8030⟩,
          ⟨true, 1589940, 868.1, 8030⟩, ⟨true, 2384910, 868.1, 8030⟩,
          ⟨true, 3179880, 868.1, 8030⟩] ∧
      windowAirtime
          [⟨true, 0, 868.1, 8030⟩, ⟨true, 794970, 868.1, 8030⟩,
            ⟨true, 1589940, 868.1, 8030⟩, ⟨true, 2384910, 868.1, 8030⟩,
            ⟨true, 3179880, 868.1, 8030⟩] 0 3600000 = 40150 ∧
      ¬ (40150 : ℚ) ≤ 36000 := by
  have hds : dutyState0 =
      ⟨868.1 :: List.replicate 15 0, (-86400000) :: List.replicate 15 (-86400000),
        0 :: List.replicate 15 0⟩ := rfl
  have c1 := check_868 (-86400000) 0 8030 0 8030 (by norm_num) (by norm_num)
  have c2 := check_868 0 8030 16060 794970 8030 (by norm_num) (by norm_num)
  have c3 := check_868 794970 16060 24090 1589940 8030 (by norm_num) (by norm_num)
  have c4 := check_868 1589940 24090 32120 2384910 8030 (by norm_num) (by norm_num)
  have c5 := check_868 2384910 32120 40150 3179880 8030 (by norm_num) (by norm_num)
  refine ⟨?_, ?_, by norm_num⟩
  · simp only [dutyCalls5, hds, LoRaWAN.runDuty, c1, c2, c3, c4, c5]
  · norm_num [windowAirtime, List.filter_cons, List.filter_nil, List.foldl]

/-- Witness for C9_duty_gate_amended: the EU868 reset state, a first
transmission at time 0 and a second at 794970 ms, both of 8030 ms air
time. -/
theorem C9_duty_gate_amended_witness :
    LoRaWAN.findChannel dutyState0.channelFrequencies 868.1 <
        dutyState0.lastChannelUse.length ∧
      (((LoRaWAN.checkDutyCycle dutyState0 0 868.1 8030).1 = true ↔
          8030 / (1 / 100) - 8030 ≤
            0 - dutyState0.lastChannelUse.getD
              (LoRaWAN.findChannel dutyState0.channelFrequencies 868.1) 0) ∧
        ((LoRaWAN.checkDutyCycle dutyState0 0 868.1 8030).1 = false →
          (LoRaWAN.checkDutyCycle dutyState0 0 868.1 8030).2 = dutyState0) ∧
        ((LoRaWAN.checkDutyCycle dutyState0 0 868.1 8030).1 = true →
          (LoRaWAN.checkDutyCycle dutyState0 0 868.1 8030).2.lastChannelUse =
              dutyState0.lastChannelUse.set
                (LoRaWAN.findChannel dutyState0.channelFrequencies 868.1) 0 ∧
            (LoRaWAN.checkDutyCycle dutyState0 0 868.1 8030).2.channelAirTime =
              dutyState0.channelAirTime.set
                (LoRaWAN.findChannel dutyState0.channelFrequencies 868.1)
                (dutyState0.channelAirTime.getD
                  (LoRaWAN.findChannel dutyState0.channelFrequencies 868.1) 0 + 8030)) ∧
        ((LoRaWAN.checkDutyCycle dutyState0 0 868.1 8030).1 = true →
          (LoRaWAN.checkDutyCycle (LoRaWAN.checkDutyCycle dutyState0 0 868.1 8030).2
              794970 868.1 8030).1 = true →
            (8030 : ℚ) / (1 / 100) - 8030 ≤ 794970 - 0)) := by
  have h0 : LoRaWAN.findChannel dutyState0.channelFrequencies 868.1 <
      dutyState0.lastChannelUse.length := by
    show LoRaWAN.findChannel (868.1 :: List.replicate 15 0) 868.1 <
      (List.replicate 16 ((-86400000 : ℚ))).length
    rw [findChannel_dutyState0]
    simp
  exact ⟨h0, C9_duty_gate_amended dutyState0 0 868.1 8030 794970 8030 h0⟩
